import Mathlib

/-
  Shallow embedding of the Intel 8080 CPU emulator core
  (src/src/cpu/emulator_shell.c, src/src/io/machine_io.h, src/src/io/input.c).

  Conventions of the embedding:
  * C `uint8_t` / `uint16_t` values are Nat; every narrowing conversion in the
    C source is an explicit `% 256` / `% 65536` (`mask8` / `mask16`).
  * C arithmetic that happens in `int` and may go negative (e.g.
    `uint8_t result = state->a - subtrahend;`) is computed in Int and brought
    back with `i8` / `i16` (Int.emod is non-negative for positive modulus,
    matching the C conversion of a negative int to an unsigned type).
  * Memory is a function Nat -> Nat; C indexes memory with int expressions
    such as `state->sp - 1`. Per the spec's memory model ("arithmetic is
    modulo 65,536", "the 16-bit address space is always valid") every index
    is reduced modulo 2^16.
  * `sound_play` is an external sink; it does not touch any state modelled
    here (CPU state, memory, MachineState), so the OUT cases to ports 3 and 5
    only advance the program counter.
  * `exit(0)` on HLT and the `exit(1)` of the default (unimplemented opcode)
    arm are modelled by the `halt` and `unimplemented` results.
-/

namespace Intel8080

set_option maxRecDepth 10000

/-- Truncation to 8 bits: the C conversion of a non-negative value to uint8_t. -/
def mask8 (x : Nat) : Nat := x % 256

/-- Truncation to 16 bits: the C conversion of a non-negative value to uint16_t. -/
def mask16 (x : Nat) : Nat := x % 65536

/-- Conversion of a (possibly negative) C int value to uint8_t. -/
def i8 (x : Int) : Nat := (x % 256).toNat

/-- Conversion of a (possibly negative) C int value to uint16_t. -/
def i16 (x : Int) : Nat := (x % 65536).toNat

/-- Structure for 8080 processor condition flags (struct ConditionCodes).
The C fields are 1-bit bitfields, so Bool is the exact carrier; the 3 pad
bits are not state. -/
structure ConditionCodes where
  z : Bool
  s : Bool
  p : Bool
  cy : Bool
  ac : Bool
  deriving Repr, DecidableEq

/-- Structure for 8080 CPU register state (struct State8080). `memory` is the
64 KiB byte array behind the `uint8_t *memory` pointer. -/
structure State8080 where
  a : Nat
  b : Nat
  c : Nat
  d : Nat
  e : Nat
  h : Nat
  l : Nat
  sp : Nat
  pc : Nat
  memory : Nat → Nat
  cc : ConditionCodes
  int_enable : Nat

/-- Structure for the emulated machine hardware (struct MachineState in
src/io/machine_io.h). -/
structure MachineState where
  port1 : Nat
  port2 : Nat
  shift_register : Nat
  shift_offset : Nat
  deriving Repr, DecidableEq

/-- Store one byte: `state->memory[addr] = v`. The index is reduced mod 2^16
(see the header comment) and the stored byte mod 2^8 (uint8_t element type). -/
def memWrite (mem : Nat → Nat) (addr v : Nat) : Nat → Nat :=
  fun i => if i = mask16 addr then mask8 v else mem i

/-- Helper function `parity`: XOR-folds an 8-bit value and returns the
inverted lowest bit (1 = even parity). Each C assignment back into the
uint8_t parameter is an 8-bit truncation. -/
def parity (num : Nat) : Bool :=
  let n1 := mask8 (num ^^^ (num >>> 4))
  let n2 := mask8 (n1 ^^^ (n1 >>> 2))
  let n3 := mask8 (n2 ^^^ (n2 >>> 1))
  decide (n3 &&& 1 = 0)

/-- Helper function `set_zsp_flags`: Z, S, P from an 8-bit result. -/
def set_zsp_flags (cc : ConditionCodes) (result : Nat) : ConditionCodes :=
  { cc with
    z := decide (result = 0)
    s := decide (result &&& 0x80 ≠ 0)
    p := parity result }

/-- Number of set bits among bits 0..7; used to state the parity contract. -/
def bitCount8 (x : Nat) : Nat :=
  (List.range 8).countP (fun i => x.testBit i)

/-- The opcode operand byte `opcode[1]` = memory[pc+1]. -/
def operand1 (s : State8080) : Nat := s.memory (mask16 (s.pc + 1))

/-- The opcode operand byte `opcode[2]` = memory[pc+2]. -/
def operand2 (s : State8080) : Nat := s.memory (mask16 (s.pc + 2))

/-- The 16-bit address formed by the H:L register pair (with the uint16_t
truncation C performs when assigning `(state->h << 8) | state->l`). -/
def hlAddr (s : State8080) : Nat := mask16 ((s.h <<< 8) ||| s.l)

/-- Body shared by the ADD-family cases (ADD r / ADD M): 16-bit sum, Z/S/P
from the truncated result, CY from bit 8, AC from the nibble sum. -/
def addOp (s : State8080) (addend : Nat) : State8080 :=
  let result := s.a + addend
  { s with
    a := mask8 result
    cc := { set_zsp_flags s.cc (mask8 result) with
              cy := decide ((result >>> 8) &&& 1 = 1)
              ac := decide ((s.a &&& 0x0F) + (addend &&& 0x0F) > 0x0F) }
    pc := mask16 (s.pc + 1) }

/-- Body shared by the ADC-family cases: A + operand + CY. -/
def adcOp (s : State8080) (addend1 : Nat) : State8080 :=
  let addend2 := s.cc.cy.toNat
  let result := s.a + addend1 + addend2
  { s with
    a := mask8 result
    cc := { set_zsp_flags s.cc (mask8 result) with
              cy := decide ((result >>> 8) &&& 1 = 1)
              ac := decide ((s.a &&& 0x0F) + (addend1 &&& 0x0F) + addend2 > 0x0F) }
    pc := mask16 (s.pc + 1) }

/-- Body shared by the SUB-family cases: A - operand, CY = borrow. -/
def subOp (s : State8080) (subtrahend : Nat) : State8080 :=
  let result := i8 ((s.a : Int) - (subtrahend : Int))
  { s with
    a := result
    cc := { set_zsp_flags s.cc result with
              cy := decide (s.a < subtrahend)
              ac := decide (s.a &&& 0x0F < (subtrahend &&& 0x0F)) }
    pc := mask16 (s.pc + 1) }

/-- Body shared by the SBB-family cases: A - operand - CY. The comparison
`state->a < (subtrahend1 + subtrahend2)` happens after integer promotion, so
the sum does not wrap at 8 bits. -/
def sbbOp (s : State8080) (subtrahend1 : Nat) : State8080 :=
  let subtrahend2 := s.cc.cy.toNat
  let result := i8 ((s.a : Int) - (subtrahend1 : Int) - (subtrahend2 : Int))
  { s with
    a := result
    cc := { set_zsp_flags s.cc result with
              cy := decide (s.a < subtrahend1 + subtrahend2)
              ac := decide (s.a &&& 0x0F < (subtrahend1 &&& 0x0F) + subtrahend2) }
    pc := mask16 (s.pc + 1) }

/-- Body shared by the CMP-family cases: SUB flags without writing A. -/
def cmpOp (s : State8080) (subtrahend : Nat) : State8080 :=
  let result := i8 ((s.a : Int) - (subtrahend : Int))
  { s with
    cc := { set_zsp_flags s.cc result with
              cy := decide (s.a < subtrahend)
              ac := decide (s.a &&& 0x0F < (subtrahend &&& 0x0F)) }
    pc := mask16 (s.pc + 1) }

/-- Body shared by the ANA-family cases: AND, CY cleared, AC from the OR of
bit 3 of the operands. -/
def anaOp (s : State8080) (operand : Nat) : State8080 :=
  let result := mask8 (s.a &&& operand)
  { s with
    a := result
    cc := { set_zsp_flags s.cc result with
              ac := decide ((s.a &&& 0x08) ||| (operand &&& 0x08) ≠ 0)
              cy := false }
    pc := mask16 (s.pc + 1) }

/-- Body shared by the XRA-family cases: XOR, CY and AC cleared. -/
def xraOp (s : State8080) (operand : Nat) : State8080 :=
  let result := mask8 (s.a ^^^ operand)
  { s with
    a := result
    cc := { set_zsp_flags s.cc result with cy := false, ac := false }
    pc := mask16 (s.pc + 1) }

/-- Body shared by the ORA-family cases: OR, CY and AC cleared. -/
def oraOp (s : State8080) (operand : Nat) : State8080 :=
  let result := mask8 (s.a ||| operand)
  { s with
    a := result
    cc := { set_zsp_flags s.cc result with cy := false, ac := false }
    pc := mask16 (s.pc + 1) }

/-- Flag updates of an INR case on the pre-increment value `reg`. -/
def inrFlags (cc : ConditionCodes) (reg : Nat) : ConditionCodes :=
  { set_zsp_flags cc (mask8 (reg + 1)) with ac := decide (reg &&& 0x0F = 0x0F) }

/-- Flag updates of a DCR case on the pre-decrement value `reg`. -/
def dcrFlags (cc : ConditionCodes) (reg : Nat) : ConditionCodes :=
  { set_zsp_flags cc (i8 ((reg : Int) - 1)) with ac := decide (reg &&& 0x0F = 0) }

/-- Body shared by the DAD cases: HL + rp, only CY affected. -/
def dadOp (s : State8080) (rp : Nat) : State8080 :=
  let hl := mask16 ((s.h <<< 8) ||| s.l)
  let result := hl + rp
  { s with
    cc := { s.cc with cy := decide (result > 0xFFFF) }
    h := ((result &&& 0xFFFF) >>> 8) &&& 0xFF
    l := (result &&& 0xFFFF) &&& 0xFF
    pc := mask16 (s.pc + 1) }

/-- Push two bytes: high at SP-1, low at SP-2, then SP -= 2 (the body shared
by PUSH rp, CALL, the conditional calls, RST and push_pc). -/
def pushPair (s : State8080) (hi lo : Nat) : State8080 :=
  { s with
    memory := memWrite (memWrite s.memory (i16 ((s.sp : Int) - 1)) hi)
                (i16 ((s.sp : Int) - 2)) lo
    sp := i16 ((s.sp : Int) - 2) }

/-- Body of RET and the taken branch of every conditional return: pop the
return address (low at SP, high at SP+1) into PC and bump SP by 2. -/
def retOp (s : State8080) : State8080 :=
  let pcl := s.memory (mask16 s.sp)
  let pch := s.memory (mask16 (s.sp + 1))
  { s with pc := mask16 ((pch <<< 8) ||| pcl), sp := mask16 (s.sp + 2) }

/-- Body of CALL and the taken branch of a conditional call: push `ret`
(already truncated by the caller) and jump to `address`. -/
def callOp (s : State8080) (address ret : Nat) : State8080 :=
  { pushPair s ((ret >>> 8) &&& 0xFF) (ret &&& 0xFF) with pc := mask16 address }

/-- Result of one interpreter step: a normal transition, the process exit of
HLT (`exit(0)`), or the fatal abort of the default arm (`exit(1)` after
logging the opcode byte and the program counter). -/
inductive StepResult where
  | ok (state : State8080) (machine : MachineState)
  | halt
  | unimplemented (op : Nat) (pc : Nat)

/-- The machine component of a step result, with a fallback for the
non-`ok` outcomes (which carry no machine state). -/
def resultMachine (r : StepResult) (fallback : MachineState) : MachineState :=
  match r with
  | .ok _ m => m
  | _ => fallback

/-- The switch body of Emulate8080Op over the fetched opcode byte
`op = *opcode = memory[pc]`: one arm per `case` of the C switch, in the same
order as the canonical opcode numbering; opcodes the C switch does not list
fall to the default arm. The switch is factored over the opcode value so the
dispatch can be reasoned about per byte, exactly as C switches on the value
read once from memory. -/
def dispatch (s : State8080) (machine : MachineState) (op : Nat) : StepResult :=
  -- NOP
  if op = 0x00 then
    .ok { s with pc := mask16 (s.pc + 1) } machine
  -- LXI B,d16
  else if op = 0x01 then
    .ok { s with b := operand2 s, c := operand1 s, pc := mask16 (s.pc + 3) } machine
  -- STAX B
  else if op = 0x02 then
    let address := mask16 ((s.b <<< 8) ||| s.c)
    .ok { s with memory := memWrite s.memory address s.a, pc := mask16 (s.pc + 1) } machine
  -- INX B
  else if op = 0x03 then
    let bc_pair := mask16 (mask16 ((s.b <<< 8) ||| s.c) + 1)
    .ok { s with b := (bc_pair >>> 8) &&& 0xFF, c := bc_pair &&& 0xFF,
                 pc := mask16 (s.pc + 1) } machine
  -- INR B
  else if op = 0x04 then
    .ok { s with cc := inrFlags s.cc s.b, b := mask8 (s.b + 1),
                         pc := mask16 (s.pc + 1) } machine
  -- DCR B
  else if op = 0x05 then
    .ok { s with cc := dcrFlags s.cc s.b, b := i8 ((s.b : Int) - 1),
                         pc := mask16 (s.pc + 1) } machine
  -- MVI B,d8
  else if op = 0x06 then
    .ok { s with b := operand1 s, pc := mask16 (s.pc + 2) } machine
  -- RLC
  else if op = 0x07 then
    let bit7 := (s.a >>> 7) &&& 1
    .ok { s with a := mask8 ((s.a <<< 1) ||| bit7),
                 cc := { s.cc with cy := decide (bit7 = 1) },
                 pc := mask16 (s.pc + 1) } machine
  -- *NOP
  else if op = 0x08 then
    .ok { s with pc := mask16 (s.pc + 1) } machine
  -- DAD B
  else if op = 0x09 then
    .ok (dadOp s (mask16 ((s.b <<< 8) ||| s.c))) machine
  -- LDAX B
  else if op = 0x0A then
    let address := mask16 ((s.b <<< 8) ||| s.c)
    .ok { s with a := s.memory address, pc := mask16 (s.pc + 1) } machine
  -- DCX B
  else if op = 0x0B then
    let bc := i16 ((mask16 ((s.b <<< 8) ||| s.c) : Int) - 1)
    .ok { s with b := (bc >>> 8) &&& 0xFF, c := bc &&& 0xFF,
                 pc := mask16 (s.pc + 1) } machine
  -- INR C
  else if op = 0x0C then
    .ok { s with cc := inrFlags s.cc s.c, c := mask8 (s.c + 1),
                         pc := mask16 (s.pc + 1) } machine
  -- DCR C
  else if op = 0x0D then
    .ok { s with cc := dcrFlags s.cc s.c, c := i8 ((s.c : Int) - 1),
                         pc := mask16 (s.pc + 1) } machine
  -- MVI C,d8
  else if op = 0x0E then
    .ok { s with c := operand1 s, pc := mask16 (s.pc + 2) } machine
  -- RRC
  else if op = 0x0F then
    let x := s.a
    .ok { s with a := mask8 ((x >>> 1) ||| ((x &&& 1) <<< 7)),
                 cc := { s.cc with cy := decide (1 = x &&& 1) },
                 pc := mask16 (s.pc + 1) } machine
  -- *NOP
  else if op = 0x10 then
    .ok { s with pc := mask16 (s.pc + 1) } machine
  -- LXI D,d16
  else if op = 0x11 then
    .ok { s with d := operand2 s, e := operand1 s, pc := mask16 (s.pc + 3) } machine
  -- STAX D
  else if op = 0x12 then
    let address := mask16 ((s.d <<< 8) ||| s.e)
    .ok { s with memory := memWrite s.memory address s.a, pc := mask16 (s.pc + 1) } machine
  -- INX D
  else if op = 0x13 then
    let de_pair := mask16 (mask16 ((s.d <<< 8) ||| s.e) + 1)
    .ok { s with d := (de_pair >>> 8) &&& 0xFF, e := de_pair &&& 0xFF,
                 pc := mask16 (s.pc + 1) } machine
  -- INR D
  else if op = 0x14 then
    .ok { s with cc := inrFlags s.cc s.d, d := mask8 (s.d + 1),
                         pc := mask16 (s.pc + 1) } machine
  -- DCR D
  else if op = 0x15 then
    .ok { s with cc := dcrFlags s.cc s.d, d := i8 ((s.d : Int) - 1),
                         pc := mask16 (s.pc + 1) } machine
  -- MVI D,d8
  else if op = 0x16 then
    .ok { s with d := operand1 s, pc := mask16 (s.pc + 2) } machine
  -- *NOP
  else if op = 0x18 then
    .ok { s with pc := mask16 (s.pc + 1) } machine
  -- DAD D
  else if op = 0x19 then
    .ok (dadOp s (mask16 ((s.d <<< 8) ||| s.e))) machine
  -- LDAX D
  else if op = 0x1A then
    let address := mask16 ((s.d <<< 8) ||| s.e)
    .ok { s with a := s.memory address, pc := mask16 (s.pc + 1) } machine
  -- DCX D
  else if op = 0x1B then
    let de := i16 ((mask16 ((s.d <<< 8) ||| s.e) : Int) - 1)
    .ok { s with d := (de >>> 8) &&& 0xFF, e := de &&& 0xFF,
                 pc := mask16 (s.pc + 1) } machine
  -- INR E
  else if op = 0x1C then
    .ok { s with cc := inrFlags s.cc s.e, e := mask8 (s.e + 1),
                         pc := mask16 (s.pc + 1) } machine
  -- DCR E
  else if op = 0x1D then
    .ok { s with cc := dcrFlags s.cc s.e, e := i8 ((s.e : Int) - 1),
                         pc := mask16 (s.pc + 1) } machine
  -- MVI E,d8
  else if op = 0x1E then
    .ok { s with e := operand1 s, pc := mask16 (s.pc + 2) } machine
  -- RAR
  else if op = 0x1F then
    let bit0 := s.a &&& 1
    .ok { s with a := mask8 ((s.a >>> 1) ||| (s.cc.cy.toNat <<< 7)),
                 cc := { s.cc with cy := decide (bit0 = 1) },
                 pc := mask16 (s.pc + 1) } machine
  -- *NOP
  else if op = 0x20 then
    .ok { s with pc := mask16 (s.pc + 1) } machine
  -- LXI H,d16
  else if op = 0x21 then
    .ok { s with h := operand2 s, l := operand1 s, pc := mask16 (s.pc + 3) } machine
  -- SHLD a16
  else if op = 0x22 then
    let address := mask16 ((operand2 s <<< 8) ||| operand1 s)
    .ok { s with memory := memWrite (memWrite s.memory address s.l) (address + 1) s.h,
                 pc := mask16 (s.pc + 3) } machine
  -- INX H
  else if op = 0x23 then
    let hl_pair := mask16 (mask16 ((s.h <<< 8) ||| s.l) + 1)
    .ok { s with h := (hl_pair >>> 8) &&& 0xFF, l := hl_pair &&& 0xFF,
                 pc := mask16 (s.pc + 1) } machine
  -- INR H
  else if op = 0x24 then
    .ok { s with cc := inrFlags s.cc s.h, h := mask8 (s.h + 1),
                         pc := mask16 (s.pc + 1) } machine
  -- DCR H
  else if op = 0x25 then
    .ok { s with cc := dcrFlags s.cc s.h, h := i8 ((s.h : Int) - 1),
                         pc := mask16 (s.pc + 1) } machine
  -- MVI H,d8
  else if op = 0x26 then
    .ok { s with h := operand1 s, pc := mask16 (s.pc + 2) } machine
  -- DAA
  else if op = 0x27 then
    let new_ac := decide (s.a &&& 0x0F > 9) || s.cc.ac
    let result1 := if new_ac then s.a + 6 else s.a
    let new_cy := decide ((result1 >>> 4) &&& 0x0F > 9) || s.cc.cy
    let result2 := if new_cy then result1 + 0x60 else result1
    .ok { s with a := result2 &&& 0xFF,
                 cc := { set_zsp_flags s.cc (result2 &&& 0xFF) with cy := new_cy, ac := new_ac },
                 pc := mask16 (s.pc + 1) } machine
  -- *NOP
  else if op = 0x28 then
    .ok { s with pc := mask16 (s.pc + 1) } machine
  -- DAD H
  else if op = 0x29 then
    .ok (dadOp s (mask16 ((s.h <<< 8) ||| s.l))) machine
  -- LHLD a16
  else if op = 0x2A then
    let address := mask16 ((operand2 s <<< 8) ||| operand1 s)
    .ok { s with l := s.memory address, h := s.memory (mask16 (address + 1)),
                 pc := mask16 (s.pc + 3) } machine
  -- DCX H
  else if op = 0x2B then
    let hl_pair := i16 ((mask16 ((s.h <<< 8) ||| s.l) : Int) - 1)
    .ok { s with h := (hl_pair >>> 8) &&& 0xFF, l := hl_pair &&& 0xFF,
                 pc := mask16 (s.pc + 1) } machine
  -- INR L
  else if op = 0x2C then
    .ok { s with cc := inrFlags s.cc s.l, l := mask8 (s.l + 1),
                         pc := mask16 (s.pc + 1) } machine
  -- MVI L,d8
  else if op = 0x2E then
    .ok { s with l := operand1 s, pc := mask16 (s.pc + 2) } machine
  -- CMA (bitwise NOT of the 8-bit accumulator)
  else if op = 0x2F then
    .ok { s with a := mask8 s.a ^^^ 0xFF, pc := mask16 (s.pc + 1) } machine
  -- *NOP
  else if op = 0x30 then
    .ok { s with pc := mask16 (s.pc + 1) } machine
  -- LXI SP,d16
  else if op = 0x31 then
    .ok { s with sp := mask16 ((operand2 s <<< 8) ||| operand1 s),
                         pc := mask16 (s.pc + 3) } machine
  -- STA a16
  else if op = 0x32 then
    let address := mask16 ((operand2 s <<< 8) ||| operand1 s)
    .ok { s with memory := memWrite s.memory address s.a, pc := mask16 (s.pc + 3) } machine
  -- INR M
  else if op = 0x34 then
    let original := s.memory (hlAddr s)
    .ok { s with memory := memWrite s.memory (hlAddr s) (mask8 (original + 1)),
                 cc := inrFlags s.cc original,
                 pc := mask16 (s.pc + 1) } machine
  -- DCR M
  else if op = 0x35 then
    let original := s.memory (hlAddr s)
    .ok { s with memory := memWrite s.memory (hlAddr s) (i8 ((original : Int) - 1)),
                 cc := dcrFlags s.cc original,
                 pc := mask16 (s.pc + 1) } machine
  -- MVI M,d8
  else if op = 0x36 then
    .ok { s with memory := memWrite s.memory (hlAddr s) (operand1 s),
                         pc := mask16 (s.pc + 2) } machine
  -- STC
  else if op = 0x37 then
    .ok { s with cc := { s.cc with cy := true }, pc := mask16 (s.pc + 1) } machine
  -- *NOP
  else if op = 0x38 then
    .ok { s with pc := mask16 (s.pc + 1) } machine
  -- DAD SP
  else if op = 0x39 then
    .ok (dadOp s s.sp) machine
  -- LDA a16
  else if op = 0x3A then
    let address := mask16 ((operand2 s <<< 8) ||| operand1 s)
    .ok { s with a := s.memory address, pc := mask16 (s.pc + 3) } machine
  -- INR A
  else if op = 0x3C then
    .ok { s with cc := inrFlags s.cc s.a, a := mask8 (s.a + 1),
                         pc := mask16 (s.pc + 1) } machine
  -- DCR A
  else if op = 0x3D then
    .ok { s with cc := dcrFlags s.cc s.a, a := i8 ((s.a : Int) - 1),
                         pc := mask16 (s.pc + 1) } machine
  -- MVI A,d8
  else if op = 0x3E then
    .ok { s with a := operand1 s, pc := mask16 (s.pc + 2) } machine
  -- CMC (bitwise NOT of the 1-bit carry field)
  else if op = 0x3F then
    .ok { s with cc := { s.cc with cy := !s.cc.cy }, pc := mask16 (s.pc + 1) } machine
  -- MOV B,B
  else if op = 0x40 then
    .ok { s with b := s.b, pc := mask16 (s.pc + 1) } machine
  -- MOV B,C
  else if op = 0x41 then
    .ok { s with b := s.c, pc := mask16 (s.pc + 1) } machine
  -- MOV B,D
  else if op = 0x42 then
    .ok { s with b := s.d, pc := mask16 (s.pc + 1) } machine
  -- MOV B,H
  else if op = 0x44 then
    .ok { s with b := s.h, pc := mask16 (s.pc + 1) } machine
  -- MOV B,L
  else if op = 0x45 then
    .ok { s with b := s.l, pc := mask16 (s.pc + 1) } machine
  -- MOV B,M
  else if op = 0x46 then
    .ok { s with b := s.memory (hlAddr s), pc := mask16 (s.pc + 1) } machine
  -- MOV B,A
  else if op = 0x47 then
    .ok { s with b := s.a, pc := mask16 (s.pc + 1) } machine
  -- MOV C,B
  else if op = 0x48 then
    .ok { s with c := s.b, pc := mask16 (s.pc + 1) } machine
  -- MOV C,C
  else if op = 0x49 then
    .ok { s with c := s.c, pc := mask16 (s.pc + 1) } machine
  -- MOV C,D
  else if op = 0x4A then
    .ok { s with c := s.d, pc := mask16 (s.pc + 1) } machine
  -- MOV C,E
  else if op = 0x4B then
    .ok { s with c := s.e, pc := mask16 (s.pc + 1) } machine
  -- MOV C,H
  else if op = 0x4C then
    .ok { s with c := s.h, pc := mask16 (s.pc + 1) } machine
  -- MOV C,L
  else if op = 0x4D then
    .ok { s with c := s.l, pc := mask16 (s.pc + 1) } machine
  -- MOV C,M
  else if op = 0x4E then
    .ok { s with c := s.memory (hlAddr s), pc := mask16 (s.pc + 1) } machine
  -- MOV C,A
  else if op = 0x4F then
    .ok { s with c := s.a, pc := mask16 (s.pc + 1) } machine
  -- MOV D,B
  else if op = 0x50 then
    .ok { s with d := s.b, pc := mask16 (s.pc + 1) } machine
  -- MOV D,C
  else if op = 0x51 then
    .ok { s with d := s.c, pc := mask16 (s.pc + 1) } machine
  -- MOV D,H
  else if op = 0x54 then
    .ok { s with d := s.h, pc := mask16 (s.pc + 1) } machine
  -- MOV D,M
  else if op = 0x56 then
    .ok { s with d := s.memory (hlAddr s), pc := mask16 (s.pc + 1) } machine
  -- MOV D,A
  else if op = 0x57 then
    .ok { s with d := s.a, pc := mask16 (s.pc + 1) } machine
  -- MOV E,C
  else if op = 0x59 then
    .ok { s with e := s.c, pc := mask16 (s.pc + 1) } machine
  -- MOV E,E
  else if op = 0x5B then
    .ok { s with e := s.e, pc := mask16 (s.pc + 1) } machine
  -- MOV E,M
  else if op = 0x5E then
    .ok { s with e := s.memory (hlAddr s), pc := mask16 (s.pc + 1) } machine
  -- MOV E,A
  else if op = 0x5F then
    .ok { s with e := s.a, pc := mask16 (s.pc + 1) } machine
  -- MOV H,B
  else if op = 0x60 then
    .ok { s with h := s.b, pc := mask16 (s.pc + 1) } machine
  -- MOV H,C
  else if op = 0x61 then
    .ok { s with h := s.c, pc := mask16 (s.pc + 1) } machine
  -- MOV H,D
  else if op = 0x62 then
    .ok { s with h := s.d, pc := mask16 (s.pc + 1) } machine
  -- MOV H,E
  else if op = 0x63 then
    .ok { s with h := s.e, pc := mask16 (s.pc + 1) } machine
  -- MOV H,H
  else if op = 0x64 then
    .ok { s with h := s.h, pc := mask16 (s.pc + 1) } machine
  -- MOV H,L
  else if op = 0x65 then
    .ok { s with h := s.l, pc := mask16 (s.pc + 1) } machine
  -- MOV H,M
  else if op = 0x66 then
    .ok { s with h := s.memory (hlAddr s), pc := mask16 (s.pc + 1) } machine
  -- MOV H,A
  else if op = 0x67 then
    .ok { s with h := s.a, pc := mask16 (s.pc + 1) } machine
  -- MOV L,B
  else if op = 0x68 then
    .ok { s with l := s.b, pc := mask16 (s.pc + 1) } machine
  -- MOV L,C
  else if op = 0x69 then
    .ok { s with l := s.c, pc := mask16 (s.pc + 1) } machine
  -- MOV L,H
  else if op = 0x6C then
    .ok { s with l := s.h, pc := mask16 (s.pc + 1) } machine
  -- MOV L,L
  else if op = 0x6D then
    .ok { s with l := s.l, pc := mask16 (s.pc + 1) } machine
  -- MOV L,M
  else if op = 0x6E then
    .ok { s with l := s.memory (hlAddr s), pc := mask16 (s.pc + 1) } machine
  -- MOV L,A
  else if op = 0x6F then
    .ok { s with l := s.a, pc := mask16 (s.pc + 1) } machine
  -- MOV M,B
  else if op = 0x70 then
    .ok { s with memory := memWrite s.memory (hlAddr s) s.b,
                         pc := mask16 (s.pc + 1) } machine
  -- MOV M,C
  else if op = 0x71 then
    .ok { s with memory := memWrite s.memory (hlAddr s) s.c,
                         pc := mask16 (s.pc + 1) } machine
  -- MOV M,D
  else if op = 0x72 then
    .ok { s with memory := memWrite s.memory (hlAddr s) s.d,
                         pc := mask16 (s.pc + 1) } machine
  -- MOV M,E
  else if op = 0x73 then
    .ok { s with memory := memWrite s.memory (hlAddr s) s.e,
                         pc := mask16 (s.pc + 1) } machine
  -- MOV M,H
  else if op = 0x74 then
    .ok { s with memory := memWrite s.memory (hlAddr s) s.h,
                         pc := mask16 (s.pc + 1) } machine
  -- HLT (exit(0))
  else if op = 0x76 then
    .halt
  -- MOV M,A
  else if op = 0x77 then
    .ok { s with memory := memWrite s.memory (hlAddr s) s.a,
                         pc := mask16 (s.pc + 1) } machine
  -- MOV A,B
  else if op = 0x78 then
    .ok { s with a := s.b, pc := mask16 (s.pc + 1) } machine
  -- MOV A,C
  else if op = 0x79 then
    .ok { s with a := s.c, pc := mask16 (s.pc + 1) } machine
  -- MOV A,D
  else if op = 0x7A then
    .ok { s with a := s.d, pc := mask16 (s.pc + 1) } machine
  -- MOV A,E
  else if op = 0x7B then
    .ok { s with a := s.e, pc := mask16 (s.pc + 1) } machine
  -- MOV A,H
  else if op = 0x7C then
    .ok { s with a := s.h, pc := mask16 (s.pc + 1) } machine
  -- MOV A,L
  else if op = 0x7D then
    .ok { s with a := s.l, pc := mask16 (s.pc + 1) } machine
  -- MOV A,M
  else if op = 0x7E then
    .ok { s with a := s.memory (hlAddr s), pc := mask16 (s.pc + 1) } machine
  -- MOV A,A
  else if op = 0x7F then
    .ok { s with a := s.a, pc := mask16 (s.pc + 1) } machine
  -- ADD B
  else if op = 0x80 then
    .ok (addOp s s.b) machine
  -- ADD C
  else if op = 0x81 then
    .ok (addOp s s.c) machine
  -- ADD D
  else if op = 0x82 then
    .ok (addOp s s.d) machine
  -- ADD E
  else if op = 0x83 then
    .ok (addOp s s.e) machine
  -- ADD H
  else if op = 0x84 then
    .ok (addOp s s.h) machine
  -- ADD L
  else if op = 0x85 then
    .ok (addOp s s.l) machine
  -- ADD M
  else if op = 0x86 then
    .ok (addOp s (s.memory (hlAddr s))) machine
  -- ADC B
  else if op = 0x88 then
    .ok (adcOp s s.b) machine
  -- ADC D
  else if op = 0x8A then
    .ok (adcOp s s.d) machine
  -- ADC E
  else if op = 0x8B then
    .ok (adcOp s s.e) machine
  -- ADC M
  else if op = 0x8E then
    .ok (adcOp s (s.memory (hlAddr s))) machine
  -- SUB B
  else if op = 0x90 then
    .ok (subOp s s.b) machine
  -- SUB H
  else if op = 0x94 then
    .ok (subOp s s.h) machine
  -- SUB A
  else if op = 0x97 then
    .ok (subOp s s.a) machine
  -- SBB B
  else if op = 0x98 then
    .ok (sbbOp s s.b) machine
  -- SBB C
  else if op = 0x99 then
    .ok (sbbOp s s.c) machine
  -- SBB D
  else if op = 0x9A then
    .ok (sbbOp s s.d) machine
  -- SBB E
  else if op = 0x9B then
    .ok (sbbOp s s.e) machine
  -- SBB L
  else if op = 0x9D then
    .ok (sbbOp s s.l) machine
  -- SBB M
  else if op = 0x9E then
    .ok (sbbOp s (s.memory (hlAddr s))) machine
  -- ANA B
  else if op = 0xA0 then
    .ok (anaOp s s.b) machine
  -- ANA E
  else if op = 0xA3 then
    .ok (anaOp s s.e) machine
  -- ANA M
  else if op = 0xA6 then
    .ok (anaOp s (s.memory (hlAddr s))) machine
  -- ANA A
  else if op = 0xA7 then
    .ok (anaOp s s.a) machine
  -- XRA B
  else if op = 0xA8 then
    .ok (xraOp s s.b) machine
  -- XRA D
  else if op = 0xAA then
    .ok (xraOp s s.d) machine
  -- XRA A
  else if op = 0xAF then
    .ok (xraOp s s.a) machine
  -- ORA B
  else if op = 0xB0 then
    .ok (oraOp s s.b) machine
  -- ORA E
  else if op = 0xB3 then
    .ok (oraOp s s.e) machine
  -- ORA H
  else if op = 0xB4 then
    .ok (oraOp s s.h) machine
  -- ORA M
  else if op = 0xB6 then
    .ok (oraOp s (s.memory (hlAddr s))) machine
  -- CMP B
  else if op = 0xB8 then
    .ok (cmpOp s s.b) machine
  -- CMP E
  else if op = 0xBB then
    .ok (cmpOp s s.e) machine
  -- CMP H
  else if op = 0xBC then
    .ok (cmpOp s s.h) machine
  -- CMP M
  else if op = 0xBE then
    .ok (cmpOp s (s.memory (hlAddr s))) machine
  -- RNZ
  else if op = 0xC0 then
    if s.cc.z = false then .ok (retOp s) machine
    else .ok { s with pc := mask16 (s.pc + 1) } machine
  -- POP B
  else if op = 0xC1 then
    .ok { s with b := s.memory (mask16 (s.sp + 1)), c := s.memory (mask16 s.sp),
                         sp := mask16 (s.sp + 2), pc := mask16 (s.pc + 1) } machine
  -- JNZ a16
  else if op = 0xC2 then
    if s.cc.z = false then .ok { s with pc := mask16 ((operand2 s <<< 8) ||| operand1 s) } machine
    else .ok { s with pc := mask16 (s.pc + 3) } machine
  -- JMP a16
  else if op = 0xC3 then
    .ok { s with pc := mask16 ((operand2 s <<< 8) ||| operand1 s) } machine
  -- CNZ a16
  else if op = 0xC4 then
    if s.cc.z = false then
      .ok (callOp s ((operand2 s <<< 8) ||| operand1 s) (mask16 (s.pc + 3))) machine
    else .ok { s with pc := mask16 (s.pc + 3) } machine
  -- PUSH B
  else if op = 0xC5 then
    .ok { pushPair s s.b s.c with pc := mask16 (s.pc + 1) } machine
  -- ADI d8 (flags set from the 16-bit sum, parity of its low byte)
  else if op = 0xC6 then
    let result := s.a + operand1 s
    .ok { s with
          cc := { z := decide (result &&& 0xFF = 0)
                  s := decide (result &&& 0x80 ≠ 0)
                  p := parity (mask8 result)
                  cy := decide (result > 0xFF)
                  ac := decide ((s.a &&& 0x0F) + (operand1 s &&& 0x0F) > 0x0F) }
          a := result &&& 0xFF
          pc := mask16 (s.pc + 2) } machine
  -- RZ
  else if op = 0xC8 then
    if s.cc.z = true then .ok (retOp s) machine
    else .ok { s with pc := mask16 (s.pc + 1) } machine
  -- RET
  else if op = 0xC9 then
    .ok (retOp s) machine
  -- JZ a16
  else if op = 0xCA then
    if s.cc.z = true then .ok { s with pc := mask16 ((operand2 s <<< 8) ||| operand1 s) } machine
    else .ok { s with pc := mask16 (s.pc + 3) } machine
  -- CZ a16
  else if op = 0xCC then
    if s.cc.z = true then
      .ok (callOp s ((operand2 s <<< 8) ||| operand1 s) (mask16 (s.pc + 3))) machine
    else .ok { s with pc := mask16 (s.pc + 3) } machine
  -- CALL a16
  else if op = 0xCD then
    .ok (callOp s ((operand2 s <<< 8) ||| operand1 s) (mask16 (s.pc + 3))) machine
  -- RNC
  else if op = 0xD0 then
    if s.cc.cy = false then .ok (retOp s) machine
    else .ok { s with pc := mask16 (s.pc + 1) } machine
  -- POP D
  else if op = 0xD1 then
    .ok { s with d := s.memory (mask16 (s.sp + 1)), e := s.memory (mask16 s.sp),
                         sp := mask16 (s.sp + 2), pc := mask16 (s.pc + 1) } machine
  -- JNC a16
  else if op = 0xD2 then
    if s.cc.cy = false then .ok { s with pc := mask16 ((operand2 s <<< 8) ||| operand1 s) } machine
    else .ok { s with pc := mask16 (s.pc + 3) } machine
  -- OUT d8: ports 2 and 4 update the machine state; ports 3 and 5 only
  -- dispatch sound triggers; port 6 (watchdog) and all others are discarded.
  else if op = 0xD3 then
    let port_number := operand1 s
    let value := s.a
    let machine2 :=
      if port_number = 2 then { machine with shift_offset := value &&& 0x7 }
      else if port_number = 4 then
        { machine with shift_register := mask16 ((value <<< 8) ||| (machine.shift_register >>> 8)) }
      else machine
    .ok { s with pc := mask16 (s.pc + 2) } machine2
  -- CNC a16
  else if op = 0xD4 then
    if s.cc.cy = false then
      .ok (callOp s ((operand2 s <<< 8) ||| operand1 s) (mask16 (s.pc + 3))) machine
    else .ok { s with pc := mask16 (s.pc + 3) } machine
  -- PUSH D
  else if op = 0xD5 then
    .ok { pushPair s s.d s.e with pc := mask16 (s.pc + 1) } machine
  -- SUI d8
  else if op = 0xD6 then
    let immediate_data := operand1 s
    let result := i8 ((s.a : Int) - (immediate_data : Int))
    .ok { s with
          cc := { set_zsp_flags s.cc result with
                    cy := decide (s.a < immediate_data)
                    ac := decide (s.a &&& 0x0F < (immediate_data &&& 0x0F)) }
          a := result
          pc := mask16 (s.pc + 2) } machine
  -- RC
  else if op = 0xD8 then
    if s.cc.cy = true then .ok (retOp s) machine
    else .ok { s with pc := mask16 (s.pc + 1) } machine
  -- JC a16
  else if op = 0xDA then
    if s.cc.cy = true then .ok { s with pc := mask16 ((operand2 s <<< 8) ||| operand1 s) } machine
    else .ok { s with pc := mask16 (s.pc + 3) } machine
  -- IN d8: port 1 loads port1, port 2 loads the constant 0x00, port 3 loads
  -- the shift-register read; any other port leaves A untouched.
  else if op = 0xDB then
    let port_number := operand1 s
    let s2 :=
      if port_number = 1 then { s with a := machine.port1 }
      else if port_number = 2 then { s with a := 0x00 }
      else if port_number = 3 then
        { s with a := (machine.shift_register >>> (8 - machine.shift_offset)) &&& 0xFF }
      else s
    .ok { s2 with pc := mask16 (s.pc + 2) } machine
  -- PUSH PSW (flag byte: S Z 0 AC 0 P 1 CY)
  else if op = 0xF5 then
    let flags := 0x02 ||| (s.cc.cy.toNat <<< 0) ||| (s.cc.p.toNat <<< 2) |||
                 (s.cc.ac.toNat <<< 4) ||| (s.cc.z.toNat <<< 6) ||| (s.cc.s.toNat <<< 7)
    .ok { pushPair s s.a flags with pc := mask16 (s.pc + 1) } machine
  -- PUSH H
  else if op = 0xE5 then
    .ok { pushPair s s.h s.l with pc := mask16 (s.pc + 1) } machine
  -- SBI d8
  else if op = 0xDE then
    let immediate_data := operand1 s
    let carry_bit := s.cc.cy.toNat
    let subtrahend := mask16 (immediate_data + carry_bit)
    let result := i8 ((s.a : Int) - (subtrahend : Int))
    .ok { s with
          cc := { set_zsp_flags s.cc result with
                    cy := decide (s.a < subtrahend)
                    ac := decide (s.a &&& 0x0F < (immediate_data &&& 0x0F) + carry_bit) }
          a := result
          pc := mask16 (s.pc + 2) } machine
  -- RPO
  else if op = 0xE0 then
    if s.cc.p = false then .ok (retOp s) machine
    else .ok { s with pc := mask16 (s.pc + 1) } machine
  -- POP H
  else if op = 0xE1 then
    .ok { s with h := s.memory (mask16 (s.sp + 1)), l := s.memory (mask16 s.sp),
                         sp := mask16 (s.sp + 2), pc := mask16 (s.pc + 1) } machine
  -- JPO a16
  else if op = 0xE2 then
    if s.cc.p = false then .ok { s with pc := mask16 ((operand2 s <<< 8) ||| operand1 s) } machine
    else .ok { s with pc := mask16 (s.pc + 3) } machine
  -- XTHL
  else if op = 0xE3 then
    .ok { s with l := s.memory (mask16 s.sp), h := s.memory (mask16 (s.sp + 1)),
                 memory := memWrite (memWrite s.memory s.sp s.l) (s.sp + 1) s.h,
                 pc := mask16 (s.pc + 1) } machine
  -- ANI d8 (clears AC, unlike the ANA family)
  else if op = 0xE6 then
    let result := mask8 (s.a &&& operand1 s)
    .ok { s with
          a := result
          cc := { set_zsp_flags s.cc result with cy := false, ac := false }
          pc := mask16 (s.pc + 2) } machine
  -- PCHL
  else if op = 0xE9 then
    .ok { s with pc := mask16 ((s.h <<< 8) ||| s.l) } machine
  -- XCHG
  else if op = 0xEB then
    .ok { s with h := s.d, d := s.h, l := s.e, e := s.l,
                         pc := mask16 (s.pc + 1) } machine
  -- CPE a16 (note: the taken branch pushes pc + 2 as the return address)
  else if op = 0xEC then
    if s.cc.p = true then
      .ok (callOp s ((operand2 s <<< 8) ||| operand1 s) (mask16 (s.pc + 2))) machine
    else .ok { s with pc := mask16 (s.pc + 3) } machine
  -- XRI d8
  else if op = 0xEE then
    let result := mask8 (s.a ^^^ operand1 s)
    .ok { s with
          a := result
          cc := { set_zsp_flags s.cc result with cy := false, ac := false }
          pc := mask16 (s.pc + 2) } machine
  -- RP (note: the pc += 1 runs even on the taken branch)
  else if op = 0xF0 then
    let s2 := if s.cc.s = false then retOp s else s
    .ok { s2 with pc := mask16 (s2.pc + 1) } machine
  -- POP PSW
  else if op = 0xF1 then
    let saved_flag_register := s.memory (mask16 s.sp)
    .ok { s with
          cc := { s := decide (saved_flag_register &&& 0x80 ≠ 0)
                  z := decide (saved_flag_register &&& 0x40 ≠ 0)
                  ac := decide (saved_flag_register &&& 0x10 ≠ 0)
                  p := decide (saved_flag_register &&& 0x04 ≠ 0)
                  cy := decide (saved_flag_register &&& 0x01 ≠ 0) }
          a := s.memory (mask16 (s.sp + 1))
          sp := mask16 (s.sp + 2)
          pc := mask16 (s.pc + 1) } machine
  -- ORI d8
  else if op = 0xF6 then
    let result := mask8 (s.a ||| operand1 s)
    .ok { s with
          a := result
          cc := { set_zsp_flags s.cc result with cy := false, ac := false }
          pc := mask16 (s.pc + 2) } machine
  -- RM
  else if op = 0xF8 then
    if s.cc.s = true then .ok (retOp s) machine
    else .ok { s with pc := mask16 (s.pc + 1) } machine
  -- JM a16
  else if op = 0xFA then
    if s.cc.s = true then .ok { s with pc := mask16 ((operand2 s <<< 8) ||| operand1 s) } machine
    else .ok { s with pc := mask16 (s.pc + 3) } machine
  -- EI
  else if op = 0xFB then
    .ok { s with int_enable := 1, pc := mask16 (s.pc + 1) } machine
  -- CM a16
  else if op = 0xFC then
    if s.cc.s = true then
      .ok (callOp s ((operand2 s <<< 8) ||| operand1 s) (mask16 (s.pc + 3))) machine
    else .ok { s with pc := mask16 (s.pc + 3) } machine
  -- CPI d8
  else if op = 0xFE then
    let diff := i8 ((s.a : Int) - (operand1 s : Int))
    .ok { s with
          cc := { set_zsp_flags s.cc diff with
                    cy := decide (s.a < operand1 s)
                    ac := decide (s.a &&& 0x0F < (operand1 s &&& 0x0F)) }
          pc := mask16 (s.pc + 2) } machine
  -- RST 7
  else if op = 0xFF then
    .ok (callOp s 0x38 (mask16 (s.pc + 1))) machine
  -- default: unimplemented instruction, log and exit(1)
  else
    .unimplemented op s.pc

/-- Function for emulating 8080 CPU instruction execution (Emulate8080Op):
read the opcode byte at the program counter and dispatch on it. -/
def Emulate8080Op (s : State8080) (machine : MachineState) : StepResult :=
  dispatch s machine (s.memory (mask16 s.pc))

/-- Interrupt helper `push_pc`: push a 16-bit value like the PUSH
instructions (high byte at SP-1, low byte at SP-2, then SP -= 2). -/
def push_pc (s : State8080) (pc : Nat) : State8080 :=
  pushPair s ((pc >>> 8) &&& 0xFF) (pc &&& 0xFF)

/-- Interrupt entry `generateInterrupt`: a no-op when the interrupt-enable
latch is 0, otherwise push PC, jump to the vector 8 * n (converted to the
uint16_t program counter) and clear the latch. -/
def generateInterrupt (s : State8080) (interrupt_num : Nat) : State8080 :=
  if s.int_enable = 0 then s
  else
    { push_pc s s.pc with
      pc := mask16 (8 * interrupt_num)
      int_enable := 0 }

/-- The machine state right after `main`'s initialization: calloc zero-fills
the struct, then port1 is set to 0b00001000 and port2 to 0x00. -/
def machineInit : MachineState :=
  { port1 := 0b00001000, port2 := 0x00, shift_register := 0, shift_offset := 0 }

/-- One key event as delivered by the host: which key, and whether it was
pressed (SDL_KEYDOWN) or released (SDL_KEYUP). -/
inductive KeyEvent where
  | keyC (pressed : Bool)
  | key1 (pressed : Bool)
  | keySpace (pressed : Bool)
  | keyLeft (pressed : Bool)
  | keyRight (pressed : Bool)
  | key2 (pressed : Bool)
  | keyQ (pressed : Bool)
  | keyW (pressed : Bool)
  | keyE (pressed : Bool)

/-- One iteration of the key switch inside `io_handle_input`
(src/src/io/input.c): set the port bit on press, clear it on release.
`machine->portN &= ~mask` on an 8-bit port value is `&&& (0xFF ^^^ mask)`. -/
def io_handle_key (machine : MachineState) (ev : KeyEvent) : MachineState :=
  match ev with
  | .keyC pressed =>
    { machine with port1 := if pressed then machine.port1 ||| 0x01
                            else machine.port1 &&& (0xFF ^^^ 0x01) }
  | .key1 pressed =>
    { machine with port1 := if pressed then machine.port1 ||| 0x04
                            else machine.port1 &&& (0xFF ^^^ 0x04) }
  | .keySpace pressed =>
    { machine with port1 := if pressed then machine.port1 ||| 0x10
                            else machine.port1 &&& (0xFF ^^^ 0x10) }
  | .keyLeft pressed =>
    { machine with port1 := if pressed then machine.port1 ||| 0x20
                            else machine.port1 &&& (0xFF ^^^ 0x20) }
  | .keyRight pressed =>
    { machine with port1 := if pressed then machine.port1 ||| 0x40
                            else machine.port1 &&& (0xFF ^^^ 0x40) }
  | .key2 pressed =>
    { machine with port1 := if pressed then machine.port1 ||| 0x02
                            else machine.port1 &&& (0xFF ^^^ 0x02) }
  | .keyQ pressed =>
    { machine with port2 := if pressed then machine.port2 ||| 0x20
                            else machine.port2 &&& (0xFF ^^^ 0x20) }
  | .keyW pressed =>
    { machine with port2 := if pressed then machine.port2 ||| 0x40
                            else machine.port2 &&& (0xFF ^^^ 0x40) }
  | .keyE pressed =>
    { machine with port2 := if pressed then machine.port2 ||| 0x10
                            else machine.port2 &&& (0xFF ^^^ 0x10) }

/-- Machine I/O states reachable from startup: the initialized state, closed
under input-event handling and under interpreter steps (the only two places
that ever write the MachineState). The fetched opcode byte comes out of the
uint8_t memory array, hence the < 256 side condition on a step. -/
inductive MachineReachable : MachineState → Prop where
  | init : MachineReachable machineInit
  | input (m : MachineState) (ev : KeyEvent) :
      MachineReachable m → MachineReachable (io_handle_key m ev)
  | step (m m2 : MachineState) (s s2 : State8080) :
      MachineReachable m → s.memory (mask16 s.pc) < 256 →
      Emulate8080Op s m = .ok s2 m2 → MachineReachable m2

/-- The byte PUSH PSW materializes from the five flags: base 0x02 (bit 1
constantly 1), CY at bit 0, P at bit 2, AC at bit 4, Z at bit 6, S at bit 7. -/
def flagByte (cc : ConditionCodes) : Nat :=
  0x02 ||| (cc.cy.toNat <<< 0) ||| (cc.p.toNat <<< 2) |||
  (cc.ac.toNat <<< 4) ||| (cc.z.toNat <<< 6) ||| (cc.s.toNat <<< 7)

/-- ROM image loaded at address 0 into the zero-filled 64 KiB memory (main
freads the file into the calloc'd array). -/
def loadROM (rom : List Nat) : Nat → Nat := fun addr => rom.getD addr 0

/-- The CPU state right after main's initialization: calloc zero-fills the
struct, so all registers, flags, SP, PC and the interrupt latch start at 0. -/
def initState (mem : Nat → Nat) : State8080 :=
  { a := 0, b := 0, c := 0, d := 0, e := 0, h := 0, l := 0, sp := 0, pc := 0,
    memory := mem,
    cc := { z := false, s := false, p := false, cy := false, ac := false },
    int_enable := 0 }

/-- The CPU-state component of a step result, with a fallback for the
non-ok outcomes. -/
def theOkState (r : StepResult) (fallback : State8080) : State8080 :=
  match r with
  | .ok s _ => s
  | _ => fallback

/-- Contract of one INR register case `op`: the register (read through `reg`)
is incremented mod 256, Z/S/P are set from the result, AC records a carry out
of the low nibble, CY is untouched, and PC advances by 1. -/
def InrRegSpec (op : Nat) (reg : State8080 → Nat) : Prop :=
  ∀ s m, s.memory (mask16 s.pc) = op →
    ∃ s2, Emulate8080Op s m = .ok s2 m ∧
      reg s2 = mask8 (reg s + 1) ∧
      s2.cc.cy = s.cc.cy ∧
      s2.cc.z = decide (mask8 (reg s + 1) = 0) ∧
      s2.cc.s = decide (mask8 (reg s + 1) &&& 0x80 ≠ 0) ∧
      s2.cc.p = parity (mask8 (reg s + 1)) ∧
      s2.cc.ac = decide (reg s &&& 0x0F = 0x0F) ∧
      s2.pc = mask16 (s.pc + 1)

/-- Contract of one DCR register case `op`: decrement mod 256, Z/S/P from the
result, AC records a borrow into the low nibble, CY untouched, PC + 1. -/
def DcrRegSpec (op : Nat) (reg : State8080 → Nat) : Prop :=
  ∀ s m, s.memory (mask16 s.pc) = op →
    ∃ s2, Emulate8080Op s m = .ok s2 m ∧
      reg s2 = i8 ((reg s : Int) - 1) ∧
      s2.cc.cy = s.cc.cy ∧
      s2.cc.z = decide (i8 ((reg s : Int) - 1) = 0) ∧
      s2.cc.s = decide (i8 ((reg s : Int) - 1) &&& 0x80 ≠ 0) ∧
      s2.cc.p = parity (i8 ((reg s : Int) - 1)) ∧
      s2.cc.ac = decide (reg s &&& 0x0F = 0) ∧
      s2.pc = mask16 (s.pc + 1)

/-- Contract of INR M (0x34), on the byte addressed by H:L. -/
def InrMSpec : Prop :=
  ∀ s m, s.memory (mask16 s.pc) = 0x34 →
    ∃ s2, Emulate8080Op s m = .ok s2 m ∧
      s2.memory (hlAddr s) = mask8 (s.memory (hlAddr s) + 1) ∧
      s2.cc.cy = s.cc.cy ∧
      s2.cc.z = decide (mask8 (s.memory (hlAddr s) + 1) = 0) ∧
      s2.cc.s = decide (mask8 (s.memory (hlAddr s) + 1) &&& 0x80 ≠ 0) ∧
      s2.cc.p = parity (mask8 (s.memory (hlAddr s) + 1)) ∧
      s2.cc.ac = decide (s.memory (hlAddr s) &&& 0x0F = 0x0F) ∧
      s2.pc = mask16 (s.pc + 1)

/-- Contract of DCR M (0x35), on the byte addressed by H:L. -/
def DcrMSpec : Prop :=
  ∀ s m, s.memory (mask16 s.pc) = 0x35 →
    ∃ s2, Emulate8080Op s m = .ok s2 m ∧
      s2.memory (hlAddr s) = i8 ((s.memory (hlAddr s) : Int) - 1) ∧
      s2.cc.cy = s.cc.cy ∧
      s2.cc.z = decide (i8 ((s.memory (hlAddr s) : Int) - 1) = 0) ∧
      s2.cc.s = decide (i8 ((s.memory (hlAddr s) : Int) - 1) &&& 0x80 ≠ 0) ∧
      s2.cc.p = parity (i8 ((s.memory (hlAddr s) : Int) - 1)) ∧
      s2.cc.ac = decide (s.memory (hlAddr s) &&& 0x0F = 0) ∧
      s2.pc = mask16 (s.pc + 1)

/-- Program "SBB B" with A = 0, B = 0xFF, CY = 1: the borrow corner case. -/
def sbbCornerState : State8080 :=
  { initState (loadROM [0x98]) with
      a := 0x00
      b := 0xFF
      cc := { z := false, s := false, p := false, cy := true, ac := false } }

/-- Program "IN 2" with A = 0x77, against a machine whose port2 is 0x55. -/
def in2State : State8080 := { initState (loadROM [0xDB, 0x02]) with a := 0x77 }

/-- Machine state with a non-zero port2 byte. -/
def port2Machine : MachineState := { machineInit with port2 := 0x55 }

/-- Program "IN 9" (a port outside 1..3) with A = 0x77. -/
def in9State : State8080 := { initState (loadROM [0xDB, 0x09]) with a := 0x77 }

/-- Program "CPE 0x3344" with P = 1 and SP = 0x2400. -/
def cpeState : State8080 :=
  { initState (loadROM [0xEC, 0x44, 0x33]) with
      sp := 0x2400
      cc := { z := false, s := false, p := true, cy := false, ac := false } }

/-- Program holding only the unimplemented opcode 0xDC (CC a16). -/
def ccState : State8080 := initState (loadROM [0xDC, 0x44, 0x33])

/-- Program holding only the unimplemented opcode 0xE4 (CPO a16). -/
def cpoState : State8080 := initState (loadROM [0xE4, 0x44, 0x33])

/-- Program holding only the unimplemented opcode 0xF4 (CP a16). -/
def cpState : State8080 := initState (loadROM [0xF4, 0x44, 0x33])

/-- Program holding only the unimplemented opcode 0x17 (RAL). -/
def ralState : State8080 := initState (loadROM [0x17])

/-- Program "RLC ; RRC" with a chosen accumulator and incoming carry. -/
def rotState (a : Nat) (cy : Bool) : State8080 :=
  { initState (loadROM [0x07, 0x0F]) with
      a := a
      cc := { z := false, s := false, p := false, cy := cy, ac := false } }

/-- Program "PUSH PSW ; POP PSW" with A = 0xA5, flags {S=1, Z=0, AC=1, P=0,
CY=1} and SP = 0x2400 (spec scenario 3). -/
def pswState : State8080 :=
  { initState (loadROM [0xF5, 0xF1]) with
      a := 0xA5
      sp := 0x2400
      cc := { z := false, s := true, p := false, cy := true, ac := true } }

/-- CPU state with PC = 0x1234, SP = 0x2400 and the interrupt latch set. -/
def intState : State8080 :=
  { initState (loadROM []) with pc := 0x1234, sp := 0x2400, int_enable := 1 }

/-- Program "OUT 4" with a chosen accumulator byte. -/
def out4State (v : Nat) : State8080 := { initState (loadROM [0xD3, 0x04]) with a := v }

/-- Program "IN 3" (read the shift-register window). -/
def in3State : State8080 := initState (loadROM [0xDB, 0x03])

/-- Program holding only the unimplemented opcode 0x2D (DCR L). -/
def dcrLState : State8080 := initState (loadROM [0x2D])

/-- Program "INR A" with A = 0xFF (the wrap-around boundary case). -/
def inrAState : State8080 := { initState (loadROM [0x3C]) with a := 0xFF }

/-- Program "IN 1" (read the player-1 input port). -/
def in1State : State8080 := initState (loadROM [0xDB, 0x01])

/-- Program holding a single NOP. -/
def nopState : State8080 := initState (loadROM [])
set_option maxRecDepth 10000

/- Small arithmetic facts used to relate the bit-level code to the spec-level
statements of the claims. -/

theorem mask8_lt (x : Nat) : mask8 x < 256 := by
  unfold mask8; omega

theorem mask8_mask8 (x : Nat) : mask8 (mask8 x) = mask8 x := by
  unfold mask8; omega

theorem mask8_eq_of_lt {x : Nat} (h : x < 256) : mask8 x = x := by
  unfold mask8; omega

theorem mask16_eq_of_lt {x : Nat} (h : x < 65536) : mask16 x = x := by
  unfold mask16; omega

theorem i16_lt (x : Int) : i16 x < 65536 := by
  unfold i16; omega

theorem i8_lt (x : Int) : i8 x < 256 := by
  unfold i8; omega

theorem mask16_i16 (x : Int) : mask16 (i16 x) = i16 x :=
  mask16_eq_of_lt (i16_lt x)

theorem and_255_eq_mod (x : Nat) : x &&& 0xFF = x % 256 := by
  have h := Nat.and_pow_two_sub_one_eq_mod x 8
  exact h

theorem shiftRight_8_eq_div (x : Nat) : x >>> 8 = x / 256 := by
  rw [Nat.shiftRight_eq_div_pow]

/-- The XOR-fold parity helper agrees with "even number of set bits" on every
8-bit value. -/
theorem parity_eq_even_bitCount : ∀ x : Nat, x < 256 →
    parity x = decide (bitCount8 x % 2 = 0) := by decide

/-- The 8-bit rotate-left image of a byte rotates back under rotate-right. -/
theorem rlc_rrc_roundtrip : ∀ a : Nat, a < 256 →
    mask8 ((mask8 ((a <<< 1) ||| ((a >>> 7) &&& 1)) >>> 1) |||
      ((mask8 ((a <<< 1) ||| ((a >>> 7) &&& 1)) &&& 1) <<< 7)) = a := by decide

/-- The pushed processor-status byte: bound, bit layout S Z 0 AC 0 P 1 CY, and
the fact that POP PSW's decoding inverts it. -/
theorem flagByte_layout (cc : ConditionCodes) :
    flagByte cc < 256 ∧ (flagByte cc).testBit 7 = cc.s ∧
    (flagByte cc).testBit 6 = cc.z ∧ (flagByte cc).testBit 5 = false ∧
    (flagByte cc).testBit 4 = cc.ac ∧ (flagByte cc).testBit 3 = false ∧
    (flagByte cc).testBit 2 = cc.p ∧ (flagByte cc).testBit 1 = true ∧
    (flagByte cc).testBit 0 = cc.cy ∧
    ({ z := decide (flagByte cc &&& 0x40 ≠ 0), s := decide (flagByte cc &&& 0x80 ≠ 0),
       p := decide (flagByte cc &&& 0x04 ≠ 0), cy := decide (flagByte cc &&& 0x01 ≠ 0),
       ac := decide (flagByte cc &&& 0x10 ≠ 0) } : ConditionCodes) = cc := by
  obtain ⟨z, s, p, cy, ac⟩ := cc
  cases z <;> cases s <;> cases p <;> cases cy <;> cases ac <;> decide

/-- Reading the shift register at `8 - offset` is the same 8-bit window as
the spec's `(shift_register <<< offset) >>> 8`. -/
theorem shift_window_eq (sr off : Nat) (hoff : off ≤ 7) :
    (sr >>> (8 - off)) &&& 0xFF = ((sr <<< off) >>> 8) &&& 0xFF := by
  rw [Nat.shiftLeft_eq, Nat.shiftRight_eq_div_pow, Nat.shiftRight_eq_div_pow]
  congr 1
  rw [show (2:Nat)^8 = 2^off * 2^(8-off) by rw [← pow_add]; congr 1; omega]
  rw [show sr * 2 ^ off = 2 ^ off * sr by ring]
  rw [Nat.mul_div_mul_left _ _ (Nat.pos_pow_of_pos off (by norm_num))]

/- Single-step evaluation lemmas: one per opcode a claim touches, each
selected by a fetch hypothesis. -/

theorem step_rlc (s : State8080) (m : MachineState) (h : s.memory (mask16 s.pc) = 0x07) :
    Emulate8080Op s m = .ok { s with
        a := mask8 ((s.a <<< 1) ||| ((s.a >>> 7) &&& 1)),
        cc := { s.cc with cy := decide ((s.a >>> 7) &&& 1 = 1) },
        pc := mask16 (s.pc + 1) } m := by
  unfold Emulate8080Op; rw [h]
  rfl

theorem step_rrc (s : State8080) (m : MachineState) (h : s.memory (mask16 s.pc) = 0x0F) :
    Emulate8080Op s m = .ok { s with
        a := mask8 ((s.a >>> 1) ||| ((s.a &&& 1) <<< 7)),
        cc := { s.cc with cy := decide (1 = s.a &&& 1) },
        pc := mask16 (s.pc + 1) } m := by
  unfold Emulate8080Op; rw [h]
  rfl

theorem step_sbb_b (s : State8080) (m : MachineState) (h : s.memory (mask16 s.pc) = 0x98) :
    Emulate8080Op s m = .ok (sbbOp s s.b) m := by
  unfold Emulate8080Op; rw [h]
  rfl

theorem step_sbi (s : State8080) (m : MachineState) (h : s.memory (mask16 s.pc) = 0xDE) :
    Emulate8080Op s m = .ok { s with
      cc := { set_zsp_flags s.cc (i8 ((s.a : Int) - (mask16 (operand1 s + s.cc.cy.toNat) : Int))) with
                cy := decide (s.a < mask16 (operand1 s + s.cc.cy.toNat))
                ac := decide (s.a &&& 0x0F < (operand1 s &&& 0x0F) + s.cc.cy.toNat) }
      a := i8 ((s.a : Int) - (mask16 (operand1 s + s.cc.cy.toNat) : Int))
      pc := mask16 (s.pc + 2) } m := by
  unfold Emulate8080Op; rw [h]
  rfl

theorem step_in (s : State8080) (m : MachineState) (h : s.memory (mask16 s.pc) = 0xDB) :
    Emulate8080Op s m = .ok
      { (if operand1 s = 1 then { s with a := m.port1 }
         else if operand1 s = 2 then { s with a := 0x00 }
         else if operand1 s = 3 then
           { s with a := (m.shift_register >>> (8 - m.shift_offset)) &&& 0xFF }
         else s) with pc := mask16 (s.pc + 2) } m := by
  unfold Emulate8080Op; rw [h]
  rfl

theorem step_out (s : State8080) (m : MachineState) (h : s.memory (mask16 s.pc) = 0xD3) :
    Emulate8080Op s m = .ok { s with pc := mask16 (s.pc + 2) }
      (if operand1 s = 2 then { m with shift_offset := s.a &&& 0x7 }
       else if operand1 s = 4 then
         { m with shift_register := mask16 ((s.a <<< 8) ||| (m.shift_register >>> 8)) }
       else m) := by
  unfold Emulate8080Op; rw [h]
  rfl

theorem step_push_psw (s : State8080) (m : MachineState) (h : s.memory (mask16 s.pc) = 0xF5) :
    Emulate8080Op s m = .ok { pushPair s s.a (flagByte s.cc) with
      pc := mask16 (s.pc + 1) } m := by
  unfold Emulate8080Op; rw [h]
  rfl

theorem step_pop_psw (s : State8080) (m : MachineState) (h : s.memory (mask16 s.pc) = 0xF1) :
    Emulate8080Op s m = .ok { s with
      cc := { s := decide (s.memory (mask16 s.sp) &&& 0x80 ≠ 0)
              z := decide (s.memory (mask16 s.sp) &&& 0x40 ≠ 0)
              ac := decide (s.memory (mask16 s.sp) &&& 0x10 ≠ 0)
              p := decide (s.memory (mask16 s.sp) &&& 0x04 ≠ 0)
              cy := decide (s.memory (mask16 s.sp) &&& 0x01 ≠ 0) }
      a := s.memory (mask16 (s.sp + 1))
      sp := mask16 (s.sp + 2)
      pc := mask16 (s.pc + 1) } m := by
  unfold Emulate8080Op; rw [h]
  rfl

theorem step_cpe (s : State8080) (m : MachineState) (h : s.memory (mask16 s.pc) = 0xEC) :
    Emulate8080Op s m =
      (if s.cc.p = true then
        .ok (callOp s ((operand2 s <<< 8) ||| operand1 s) (mask16 (s.pc + 2))) m
      else .ok { s with pc := mask16 (s.pc + 3) } m) := by
  unfold Emulate8080Op; rw [h]
  rfl

theorem step_ral_unimplemented (s : State8080) (m : MachineState)
    (h : s.memory (mask16 s.pc) = 0x17) :
    Emulate8080Op s m = .unimplemented 0x17 s.pc := by
  unfold Emulate8080Op; rw [h]
  rfl

theorem step_dcr_l_unimplemented (s : State8080) (m : MachineState)
    (h : s.memory (mask16 s.pc) = 0x2D) :
    Emulate8080Op s m = .unimplemented 0x2D s.pc := by
  unfold Emulate8080Op; rw [h]
  rfl

theorem step_cc_unimplemented (s : State8080) (m : MachineState)
    (h : s.memory (mask16 s.pc) = 0xDC) :
    Emulate8080Op s m = .unimplemented 0xDC s.pc := by
  unfold Emulate8080Op; rw [h]
  rfl

theorem step_cpo_unimplemented (s : State8080) (m : MachineState)
    (h : s.memory (mask16 s.pc) = 0xE4) :
    Emulate8080Op s m = .unimplemented 0xE4 s.pc := by
  unfold Emulate8080Op; rw [h]
  rfl

theorem step_cp_unimplemented (s : State8080) (m : MachineState)
    (h : s.memory (mask16 s.pc) = 0xF4) :
    Emulate8080Op s m = .unimplemented 0xF4 s.pc := by
  unfold Emulate8080Op; rw [h]
  rfl

theorem mask16_mask16 (x : Nat) : mask16 (mask16 x) = mask16 x := by
  unfold mask16; omega

theorem step_inr_b (s : State8080) (m : MachineState)
    (h : s.memory (mask16 s.pc) = 0x04) :
    Emulate8080Op s m = .ok { s with
      cc := inrFlags s.cc s.b
      b := mask8 (s.b + 1)
      pc := mask16 (s.pc + 1) } m := by
  unfold Emulate8080Op; rw [h]
  rfl

theorem step_dcr_b (s : State8080) (m : MachineState)
    (h : s.memory (mask16 s.pc) = 0x05) :
    Emulate8080Op s m = .ok { s with
      cc := dcrFlags s.cc s.b
      b := i8 ((s.b : Int) - 1)
      pc := mask16 (s.pc + 1) } m := by
  unfold Emulate8080Op; rw [h]
  rfl

theorem step_inr_c (s : State8080) (m : MachineState)
    (h : s.memory (mask16 s.pc) = 0x0C) :
    Emulate8080Op s m = .ok { s with
      cc := inrFlags s.cc s.c
      c := mask8 (s.c + 1)
      pc := mask16 (s.pc + 1) } m := by
  unfold Emulate8080Op; rw [h]
  rfl

theorem step_dcr_c (s : State8080) (m : MachineState)
    (h : s.memory (mask16 s.pc) = 0x0D) :
    Emulate8080Op s m = .ok { s with
      cc := dcrFlags s.cc s.c
      c := i8 ((s.c : Int) - 1)
      pc := mask16 (s.pc + 1) } m := by
  unfold Emulate8080Op; rw [h]
  rfl

theorem step_inr_d (s : State8080) (m : MachineState)
    (h : s.memory (mask16 s.pc) = 0x14) :
    Emulate8080Op s m = .ok { s with
      cc := inrFlags s.cc s.d
      d := mask8 (s.d + 1)
      pc := mask16 (s.pc + 1) } m := by
  unfold Emulate8080Op; rw [h]
  rfl

theorem step_dcr_d (s : State8080) (m : MachineState)
    (h : s.memory (mask16 s.pc) = 0x15) :
    Emulate8080Op s m = .ok { s with
      cc := dcrFlags s.cc s.d
      d := i8 ((s.d : Int) - 1)
      pc := mask16 (s.pc + 1) } m := by
  unfold Emulate8080Op; rw [h]
  rfl

theorem step_inr_e (s : State8080) (m : MachineState)
    (h : s.memory (mask16 s.pc) = 0x1C) :
    Emulate8080Op s m = .ok { s with
      cc := inrFlags s.cc s.e
      e := mask8 (s.e + 1)
      pc := mask16 (s.pc + 1) } m := by
  unfold Emulate8080Op; rw [h]
  rfl

theorem step_dcr_e (s : State8080) (m : MachineState)
    (h : s.memory (mask16 s.pc) = 0x1D) :
    Emulate8080Op s m = .ok { s with
      cc := dcrFlags s.cc s.e
      e := i8 ((s.e : Int) - 1)
      pc := mask16 (s.pc + 1) } m := by
  unfold Emulate8080Op; rw [h]
  rfl

theorem step_inr_h (s : State8080) (m : MachineState)
    (h : s.memory (mask16 s.pc) = 0x24) :
    Emulate8080Op s m = .ok { s with
      cc := inrFlags s.cc s.h
      h := mask8 (s.h + 1)
      pc := mask16 (s.pc + 1) } m := by
  unfold Emulate8080Op; rw [h]
  rfl

theorem step_dcr_h (s : State8080) (m : MachineState)
    (h : s.memory (mask16 s.pc) = 0x25) :
    Emulate8080Op s m = .ok { s with
      cc := dcrFlags s.cc s.h
      h := i8 ((s.h : Int) - 1)
      pc := mask16 (s.pc + 1) } m := by
  unfold Emulate8080Op; rw [h]
  rfl

theorem step_inr_l (s : State8080) (m : MachineState)
    (h : s.memory (mask16 s.pc) = 0x2C) :
    Emulate8080Op s m = .ok { s with
      cc := inrFlags s.cc s.l
      l := mask8 (s.l + 1)
      pc := mask16 (s.pc + 1) } m := by
  unfold Emulate8080Op; rw [h]
  rfl

theorem step_inr_a (s : State8080) (m : MachineState)
    (h : s.memory (mask16 s.pc) = 0x3C) :
    Emulate8080Op s m = .ok { s with
      cc := inrFlags s.cc s.a
      a := mask8 (s.a + 1)
      pc := mask16 (s.pc + 1) } m := by
  unfold Emulate8080Op; rw [h]
  rfl

theorem step_dcr_a (s : State8080) (m : MachineState)
    (h : s.memory (mask16 s.pc) = 0x3D) :
    Emulate8080Op s m = .ok { s with
      cc := dcrFlags s.cc s.a
      a := i8 ((s.a : Int) - 1)
      pc := mask16 (s.pc + 1) } m := by
  unfold Emulate8080Op; rw [h]
  rfl

theorem step_inr_m (s : State8080) (m : MachineState)
    (h : s.memory (mask16 s.pc) = 0x34) :
    Emulate8080Op s m = .ok { s with
      memory := memWrite s.memory (hlAddr s) (mask8 (s.memory (hlAddr s) + 1))
      cc := inrFlags s.cc (s.memory (hlAddr s))
      pc := mask16 (s.pc + 1) } m := by
  unfold Emulate8080Op; rw [h]
  rfl

theorem step_dcr_m (s : State8080) (m : MachineState)
    (h : s.memory (mask16 s.pc) = 0x35) :
    Emulate8080Op s m = .ok { s with
      memory := memWrite s.memory (hlAddr s) (i8 ((s.memory (hlAddr s) : Int) - 1))
      cc := dcrFlags s.cc (s.memory (hlAddr s))
      pc := mask16 (s.pc + 1) } m := by
  unfold Emulate8080Op; rw [h]
  rfl

/-- POP PSW (0xF1) restores the flag set whose flag byte sits at SP and the
accumulator byte at SP+1, and bumps SP by 2. -/
theorem pop_psw_restores (t : State8080) (m : MachineState) (cc0 : ConditionCodes)
    (a0 : Nat) (h2 : t.memory (mask16 t.pc) = 0xF1)
    (hfb : t.memory (mask16 t.sp) = flagByte cc0)
    (ha0 : t.memory (mask16 (t.sp + 1)) = a0) :
    ∃ s2, Emulate8080Op t m = .ok s2 m ∧ s2.a = a0 ∧ s2.cc = cc0 ∧
      s2.sp = mask16 (t.sp + 2) := by
  refine ⟨_, step_pop_psw t m h2, ha0, ?_, rfl⟩
  show ({ s := decide (t.memory (mask16 t.sp) &&& 0x80 ≠ 0)
          z := decide (t.memory (mask16 t.sp) &&& 0x40 ≠ 0)
          ac := decide (t.memory (mask16 t.sp) &&& 0x10 ≠ 0)
          p := decide (t.memory (mask16 t.sp) &&& 0x04 ≠ 0)
          cy := decide (t.memory (mask16 t.sp) &&& 0x01 ≠ 0) } : ConditionCodes) = cc0
  rw [hfb]
  exact (flagByte_layout cc0).2.2.2.2.2.2.2.2.2

set_option maxHeartbeats 4000000 in
/-- No arm of the switch other than OUT (0xD3) builds a different
MachineState: dispatching any other opcode byte returns the machine it was
given. -/
theorem dispatch_machine_frame (op : Nat) (hb : op < 256) (hop : op ≠ 0xD3)
    (s : State8080) (m : MachineState) :
    resultMachine (dispatch s m op) m = m := by
  obtain ⟨ra, rb, rc, rd, re, rh, rl, rsp, rpc, rmem, ⟨fz, fs, fp, fcy, fac⟩, rie⟩ := s
  interval_cases op <;>
    first
      | exact absurd rfl hop
      | rfl
      | (cases fz <;> rfl)
      | (cases fcy <;> rfl)
      | (cases fp <;> rfl)
      | (cases fs <;> rfl)

/-- Any step whose fetched opcode byte is not OUT (0xD3) returns the machine
state it was given. -/
theorem emulate_machine_frame (op : Nat) (hb : op < 256) (hop : op ≠ 0xD3)
    (s : State8080) (m : MachineState) (hfetch : s.memory (mask16 s.pc) = op) :
    resultMachine (Emulate8080Op s m) m = m := by
  unfold Emulate8080Op
  rw [hfetch]
  exact dispatch_machine_frame op hb hop s m

/-- No arm of the switch, OUT included, ever changes port1. -/
theorem emulate_port1_frame (s s2 : State8080) (m m2 : MachineState)
    (hb : s.memory (mask16 s.pc) < 256)
    (hstep : Emulate8080Op s m = .ok s2 m2) : m2.port1 = m.port1 := by
  by_cases hop : s.memory (mask16 s.pc) = 0xD3
  · rw [step_out s m hop] at hstep
    injection hstep with h1 h2
    rw [← h2]
    split_ifs <;> rfl
  · have hfr := emulate_machine_frame (s.memory (mask16 s.pc)) hb hop s m rfl
    rw [hstep] at hfr
    rw [show resultMachine (.ok s2 m2) m = m2 from rfl] at hfr
    rw [hfr]

/-- C1: executing SBB B (0x98) or SBI (0xDE) leaves the accumulator equal to
(a - x - c) mod 256 and sets CY exactly when a - x - c < 0 in exact integer
arithmetic, where x is the operand byte and c the incoming carry bit; the
a = 0, x = 0xFF, c = 1 corner therefore sets CY. -/
theorem c1_sbb_sbi_borrow (s : State8080) (m : MachineState) :
    (s.memory (mask16 s.pc) = 0x98 →
      ∃ s2, Emulate8080Op s m = .ok s2 m ∧
        s2.a = (((s.a : Int) - (s.b : Int) - (s.cc.cy.toNat : Int)) % 256).toNat ∧
        (s2.cc.cy = true ↔ (s.a : Int) - (s.b : Int) - (s.cc.cy.toNat : Int) < 0)) ∧
    (operand1 s < 256 → s.memory (mask16 s.pc) = 0xDE →
      ∃ s2, Emulate8080Op s m = .ok s2 m ∧
        s2.a = (((s.a : Int) - (operand1 s : Int) - (s.cc.cy.toNat : Int)) % 256).toNat ∧
        (s2.cc.cy = true ↔ (s.a : Int) - (operand1 s : Int) - (s.cc.cy.toNat : Int) < 0)) := by
  constructor
  · intro h
    refine ⟨_, step_sbb_b s m h, rfl, ?_⟩
    rw [show (sbbOp s s.b).cc.cy = decide (s.a < s.b + s.cc.cy.toNat) from rfl]
    rw [decide_eq_true_eq]
    omega
  · intro hx h
    refine ⟨_, step_sbi s m h, ?_, ?_⟩
    · show i8 ((s.a : Int) - (mask16 (operand1 s + s.cc.cy.toNat) : Int)) = _
      have hc : s.cc.cy.toNat ≤ 1 := Bool.toNat_le s.cc.cy
      have hm : mask16 (operand1 s + s.cc.cy.toNat) = operand1 s + s.cc.cy.toNat := by
        unfold mask16; omega
      rw [hm]
      unfold i8
      congr 1
      omega
    · show decide (s.a < mask16 (operand1 s + s.cc.cy.toNat)) = true ↔ _
      rw [decide_eq_true_eq]
      have hc : s.cc.cy.toNat ≤ 1 := Bool.toNat_le s.cc.cy
      unfold mask16
      omega

/-- C1 witness: the corner case A = 0, operand 0xFF, CY = 1 through SBB B
leaves A = 0 and sets CY. -/
theorem c1_sbb_sbi_borrow_witness :
    ∃ s2, Emulate8080Op sbbCornerState machineInit = .ok s2 machineInit ∧
      s2.a = 0x00 ∧ s2.cc.cy = true := by
  obtain ⟨s2, hstep, ha, hcy⟩ := (c1_sbb_sbi_borrow sbbCornerState machineInit).1 rfl
  refine ⟨s2, hstep, ?_, hcy.mpr (by decide)⟩
  rw [ha]; decide

/-- C2 counterexample: against a machine with port2 = 0x55, IN 2 loads the
constant 0x00 into A (not port2), and IN from port 9 leaves A = 0x77 rather
than loading 0. -/
theorem c2_in_counterexample :
    (theOkState (Emulate8080Op in2State port2Machine) in2State).a = 0x00 ∧
    port2Machine.port2 = 0x55 ∧
    (theOkState (Emulate8080Op in9State port2Machine) in9State).a = 0x77 := by
  refine ⟨?_, rfl, ?_⟩
  · rw [step_in in2State port2Machine rfl]; decide
  · rw [step_in in9State port2Machine rfl]; decide

/-- C2 amended: IN loads A from port1 for port 1, the constant 0 for port 2,
the shift-register window for port 3, and leaves A unchanged for every other
port; in all cases only A and PC change and the machine state is untouched. -/
theorem c2_in_amended (s : State8080) (m : MachineState)
    (h : s.memory (mask16 s.pc) = 0xDB) :
    ∃ s2, Emulate8080Op s m = .ok s2 m ∧
      s2.a = (if operand1 s = 1 then m.port1
              else if operand1 s = 2 then 0x00
              else if operand1 s = 3 then
                (m.shift_register >>> (8 - m.shift_offset)) &&& 0xFF
              else s.a) ∧
      s2.pc = mask16 (s.pc + 2) ∧ s2.b = s.b ∧ s2.c = s.c ∧ s2.d = s.d ∧
      s2.e = s.e ∧ s2.h = s.h ∧ s2.l = s.l ∧ s2.sp = s.sp ∧ s2.cc = s.cc ∧
      s2.int_enable = s.int_enable ∧ s2.memory = s.memory := by
  refine ⟨_, step_in s m h, ?_, ?_, ?_, ?_, ?_, ?_, ?_, ?_, ?_, ?_, ?_, ?_⟩ <;>
    first | rfl | (split_ifs <;> rfl)

/-- C2 witness: IN 2 against port2 = 0x55 takes the port-2 branch of the
amended statement. -/
theorem c2_in_amended_witness :
    ∃ s2, Emulate8080Op in2State port2Machine = .ok s2 port2Machine ∧
      s2.a = 0x00 ∧ s2.pc = 2 := by
  obtain ⟨s2, hstep, ha, hpc, _⟩ := c2_in_amended in2State port2Machine rfl
  refine ⟨s2, hstep, ?_, ?_⟩
  · rw [ha]; decide
  · rw [hpc]; decide

/-- C3: evaluation at the failing input. With P = 1, PC = 0, SP = 0x2400,
executing CPE 0x3344 pushes 0x0002 = PC + 2 (low byte 0x02 at 0x23FE, high
byte 0x00 at 0x23FF) instead of the following instruction's address PC + 3,
and the conditional calls CC (0xDC), CPO (0xE4) and CP (0xF4) hit the fatal
unimplemented-opcode abort instead of pushing anything. -/
theorem c3_conditional_call_evaluation :
    (theOkState (Emulate8080Op cpeState machineInit) cpeState).pc = 0x3344 ∧
    (theOkState (Emulate8080Op cpeState machineInit) cpeState).sp = 0x23FE ∧
    (theOkState (Emulate8080Op cpeState machineInit) cpeState).memory 0x23FE = 0x02 ∧
    (theOkState (Emulate8080Op cpeState machineInit) cpeState).memory 0x23FF = 0x00 ∧
    Emulate8080Op ccState machineInit = .unimplemented 0xDC 0 ∧
    Emulate8080Op cpoState machineInit = .unimplemented 0xE4 0 ∧
    Emulate8080Op cpState machineInit = .unimplemented 0xF4 0 := by
  refine ⟨?_, ?_, ?_, ?_, step_cc_unimplemented ccState machineInit rfl,
    step_cpo_unimplemented cpoState machineInit rfl,
    step_cp_unimplemented cpState machineInit rfl⟩ <;>
  · rw [step_cpe cpeState machineInit rfl]
    decide

/-- C4 counterexample: RAL (0x17) is not implemented, so executing it aborts
with the fatal unimplemented-opcode error instead of completing normally. -/
theorem c4_ral_counterexample :
    Emulate8080Op ralState machineInit = .unimplemented 0x17 0 :=
  step_ral_unimplemented ralState machineInit rfl

/-- C4 amended: RLC followed by RRC returns A to its original value with both
steps completing normally; RAR is implemented, but RAL (0x17) always triggers
the fatal unimplemented-opcode abort, so the RAL/RAR round trip cannot
execute. -/
theorem c4_rotate_amended (a : Nat) (ha : a < 256) (cy : Bool) :
    (∃ s1 s2, Emulate8080Op (rotState a cy) machineInit = .ok s1 machineInit ∧
       Emulate8080Op s1 machineInit = .ok s2 machineInit ∧
       s2.a = a ∧ s2.pc = 2) ∧
    (∀ s m, s.memory (mask16 s.pc) = 0x17 →
       Emulate8080Op s m = .unimplemented 0x17 s.pc) := by
  constructor
  · refine ⟨_, _, step_rlc (rotState a cy) machineInit rfl,
      step_rrc _ machineInit rfl, ?_, rfl⟩
    exact rlc_rrc_roundtrip a ha
  · exact fun s m h => step_ral_unimplemented s m h

/-- C4 witness: the round trip at A = 0xA5 with CY = 1. -/
theorem c4_rotate_amended_witness :
    ∃ s1 s2, Emulate8080Op (rotState 0xA5 true) machineInit = .ok s1 machineInit ∧
      Emulate8080Op s1 machineInit = .ok s2 machineInit ∧
      s2.a = 0xA5 ∧ s2.pc = 2 :=
  (c4_rotate_amended 0xA5 (by decide) true).1

/-- C10: a step from any state whose fetched opcode byte is not OUT (0xD3)
leaves the machine I/O state (port1, port2, shift register, shift offset)
exactly as it was; in particular IN (0xDB) only reads it. -/
theorem c10_machine_frame (s : State8080) (m : MachineState)
    (hb : s.memory (mask16 s.pc) < 256) (h : s.memory (mask16 s.pc) ≠ 0xD3) :
    resultMachine (Emulate8080Op s m) m = m :=
  emulate_machine_frame (s.memory (mask16 s.pc)) hb h s m rfl

/-- C10 witness: a NOP step leaves the machine state untouched. -/
theorem c10_machine_frame_witness :
    resultMachine (Emulate8080Op nopState machineInit) machineInit = machineInit :=
  c10_machine_frame nopState machineInit (by decide) (by decide)

/-- C8 counterexample: DCR L (0x2D) is unimplemented; executing it hits the
fatal unimplemented-opcode abort instead of completing normally. -/
theorem c8_dcr_l_counterexample :
    Emulate8080Op dcrLState machineInit = .unimplemented 0x2D 0 :=
  step_dcr_l_unimplemented dcrLState machineInit rfl

/-- C8 amended: every implemented INR/DCR form (INR r for all seven registers
and for M; DCR for B, C, D, E, H, A and for M) completes normally,
increments or decrements the operand by 1 modulo 256, sets Z, S, P, AC from
the operation (AC from the low nibble of the original value), leaves CY
untouched and advances PC by 1; INR of 0xFF wraps to 0 with Z and AC set and
S clear. The one missing form is DCR L (0x2D), which triggers the fatal
unimplemented-opcode abort. The parity helper feeding the P flag computes
evenness of the 8-bit population count. -/
theorem c8_inr_dcr_amended :
    InrRegSpec 0x04 State8080.b ∧ DcrRegSpec 0x05 State8080.b ∧
    InrRegSpec 0x0C State8080.c ∧ DcrRegSpec 0x0D State8080.c ∧
    InrRegSpec 0x14 State8080.d ∧ DcrRegSpec 0x15 State8080.d ∧
    InrRegSpec 0x1C State8080.e ∧ DcrRegSpec 0x1D State8080.e ∧
    InrRegSpec 0x24 State8080.h ∧ DcrRegSpec 0x25 State8080.h ∧
    InrRegSpec 0x2C State8080.l ∧
    InrRegSpec 0x3C State8080.a ∧ DcrRegSpec 0x3D State8080.a ∧
    InrMSpec ∧ DcrMSpec ∧
    (∀ s m, s.memory (mask16 s.pc) = 0x2D →
      Emulate8080Op s m = .unimplemented 0x2D s.pc) ∧
    (∀ x : Nat, x < 256 → parity x = decide (bitCount8 x % 2 = 0)) := by
  refine ⟨?_, ?_, ?_, ?_, ?_, ?_, ?_, ?_, ?_, ?_, ?_, ?_, ?_, ?_, ?_,
    fun s m h => step_dcr_l_unimplemented s m h, parity_eq_even_bitCount⟩
  case _ => exact fun s m h =>
    ⟨_, step_inr_b s m h, rfl, rfl, rfl, rfl, rfl, rfl, rfl⟩
  case _ => exact fun s m h =>
    ⟨_, step_dcr_b s m h, rfl, rfl, rfl, rfl, rfl, rfl, rfl⟩
  case _ => exact fun s m h =>
    ⟨_, step_inr_c s m h, rfl, rfl, rfl, rfl, rfl, rfl, rfl⟩
  case _ => exact fun s m h =>
    ⟨_, step_dcr_c s m h, rfl, rfl, rfl, rfl, rfl, rfl, rfl⟩
  case _ => exact fun s m h =>
    ⟨_, step_inr_d s m h, rfl, rfl, rfl, rfl, rfl, rfl, rfl⟩
  case _ => exact fun s m h =>
    ⟨_, step_dcr_d s m h, rfl, rfl, rfl, rfl, rfl, rfl, rfl⟩
  case _ => exact fun s m h =>
    ⟨_, step_inr_e s m h, rfl, rfl, rfl, rfl, rfl, rfl, rfl⟩
  case _ => exact fun s m h =>
    ⟨_, step_dcr_e s m h, rfl, rfl, rfl, rfl, rfl, rfl, rfl⟩
  case _ => exact fun s m h =>
    ⟨_, step_inr_h s m h, rfl, rfl, rfl, rfl, rfl, rfl, rfl⟩
  case _ => exact fun s m h =>
    ⟨_, step_dcr_h s m h, rfl, rfl, rfl, rfl, rfl, rfl, rfl⟩
  case _ => exact fun s m h =>
    ⟨_, step_inr_l s m h, rfl, rfl, rfl, rfl, rfl, rfl, rfl⟩
  case _ => exact fun s m h =>
    ⟨_, step_inr_a s m h, rfl, rfl, rfl, rfl, rfl, rfl, rfl⟩
  case _ => exact fun s m h =>
    ⟨_, step_dcr_a s m h, rfl, rfl, rfl, rfl, rfl, rfl, rfl⟩
  case _ =>
    intro s m h
    refine ⟨_, step_inr_m s m h, ?_, rfl, rfl, rfl, rfl, rfl, rfl⟩
    show memWrite s.memory (hlAddr s) (mask8 (s.memory (hlAddr s) + 1)) (hlAddr s) = _
    unfold memWrite
    rw [if_pos (show hlAddr s = mask16 (hlAddr s) by unfold hlAddr; rw [mask16_mask16])]
    exact mask8_mask8 _
  case _ =>
    intro s m h
    refine ⟨_, step_dcr_m s m h, ?_, rfl, rfl, rfl, rfl, rfl, rfl⟩
    show memWrite s.memory (hlAddr s) (i8 ((s.memory (hlAddr s) : Int) - 1)) (hlAddr s) = _
    unfold memWrite
    rw [if_pos (show hlAddr s = mask16 (hlAddr s) by unfold hlAddr; rw [mask16_mask16])]
    exact mask8_eq_of_lt (i8_lt _)

/-- C8 witness: INR A at A = 0xFF wraps to 0 with Z set, AC set, S clear and
CY untouched. -/
theorem c8_inr_dcr_amended_witness :
    ∃ s2, Emulate8080Op inrAState machineInit = .ok s2 machineInit ∧
      s2.a = 0 ∧ s2.cc.z = true ∧ s2.cc.ac = true ∧ s2.cc.s = false ∧
      s2.cc.cy = false := by
  obtain ⟨s2, hstep, hra, hcy, hz, hs, hp, hac, hpc⟩ :=
    c8_inr_dcr_amended.2.2.2.2.2.2.2.2.2.2.2.1 inrAState machineInit rfl
  exact ⟨s2, hstep, by rw [hra]; decide, by rw [hz]; decide, by rw [hac]; decide,
    by rw [hs]; decide, hcy⟩

/-- C5: for every accumulator value, five-flag state and stack pointer,
PUSH PSW writes A at SP-1 and the flag byte at SP-2 with bit layout
S Z 0 AC 0 P 1 CY (bit 1 constantly 1, bits 3 and 5 constantly 0), and a
following POP PSW restores A, all five flags and SP exactly. -/
theorem c5_push_pop_psw (s : State8080) (m : MachineState)
    (ha : s.a < 256) (hsp : s.sp < 65536)
    (h1 : s.memory (mask16 s.pc) = 0xF5) :
    ∃ s1, Emulate8080Op s m = .ok s1 m ∧
      (s1.memory (i16 ((s.sp : Int) - 2))).testBit 7 = s.cc.s ∧
      (s1.memory (i16 ((s.sp : Int) - 2))).testBit 6 = s.cc.z ∧
      (s1.memory (i16 ((s.sp : Int) - 2))).testBit 5 = false ∧
      (s1.memory (i16 ((s.sp : Int) - 2))).testBit 4 = s.cc.ac ∧
      (s1.memory (i16 ((s.sp : Int) - 2))).testBit 3 = false ∧
      (s1.memory (i16 ((s.sp : Int) - 2))).testBit 2 = s.cc.p ∧
      (s1.memory (i16 ((s.sp : Int) - 2))).testBit 1 = true ∧
      (s1.memory (i16 ((s.sp : Int) - 2))).testBit 0 = s.cc.cy ∧
      s1.memory (i16 ((s.sp : Int) - 1)) = s.a ∧
      s1.sp = i16 ((s.sp : Int) - 2) ∧
      (s1.memory (mask16 s1.pc) = 0xF1 →
        ∃ s2, Emulate8080Op s1 m = .ok s2 m ∧
          s2.a = s.a ∧ s2.cc = s.cc ∧ s2.sp = s.sp) := by
  have hlay := flagByte_layout s.cc
  refine ⟨_, step_push_psw s m h1, ?_⟩
  have hm2 : ({ pushPair s s.a (flagByte s.cc) with
      pc := mask16 (s.pc + 1) } : State8080).memory (i16 ((s.sp : Int) - 2)) =
      flagByte s.cc := by
    show memWrite (memWrite s.memory (i16 ((s.sp : Int) - 1)) s.a)
      (i16 ((s.sp : Int) - 2)) (flagByte s.cc) (i16 ((s.sp : Int) - 2)) = _
    unfold memWrite
    rw [mask16_i16]
    rw [if_pos rfl]
    exact mask8_eq_of_lt hlay.1
  have hm1 : ({ pushPair s s.a (flagByte s.cc) with
      pc := mask16 (s.pc + 1) } : State8080).memory (i16 ((s.sp : Int) - 1)) = s.a := by
    show memWrite (memWrite s.memory (i16 ((s.sp : Int) - 1)) s.a)
      (i16 ((s.sp : Int) - 2)) (flagByte s.cc) (i16 ((s.sp : Int) - 1)) = _
    unfold memWrite
    rw [mask16_i16, mask16_i16]
    rw [if_neg (show ¬ i16 ((s.sp : Int) - 1) = i16 ((s.sp : Int) - 2) by
      unfold i16; omega)]
    rw [if_pos rfl]
    exact mask8_eq_of_lt ha
  rw [hm2, hm1]
  refine ⟨hlay.2.1, hlay.2.2.1, hlay.2.2.2.1, hlay.2.2.2.2.1, hlay.2.2.2.2.2.1,
    hlay.2.2.2.2.2.2.1, hlay.2.2.2.2.2.2.2.1, hlay.2.2.2.2.2.2.2.2.1, rfl, rfl, ?_⟩
  intro h2
  obtain ⟨s2, hstep2, ha2, hcc2, hsp2⟩ :=
    pop_psw_restores { pushPair s s.a (flagByte s.cc) with pc := mask16 (s.pc + 1) }
      m s.cc s.a h2
      (by rw [show mask16 ({ pushPair s s.a (flagByte s.cc) with
            pc := mask16 (s.pc + 1) } : State8080).sp = i16 ((s.sp : Int) - 2)
          from mask16_i16 _]
          exact hm2)
      (by rw [show mask16 (({ pushPair s s.a (flagByte s.cc) with
            pc := mask16 (s.pc + 1) } : State8080).sp + 1) = i16 ((s.sp : Int) - 1) by
          show mask16 (i16 ((s.sp : Int) - 2) + 1) = i16 ((s.sp : Int) - 1)
          unfold i16 mask16; omega]
          exact hm1)
  refine ⟨s2, hstep2, ha2, hcc2, ?_⟩
  rw [hsp2]
  show mask16 (i16 ((s.sp : Int) - 2) + 2) = s.sp
  unfold i16 mask16
  omega

/-- C5 witness: the round trip at A = 0xA5, flags {S=1, Z=0, AC=1, P=0, CY=1},
SP = 0x2400 (spec scenario 3), instantiating the general statement. -/
theorem c5_push_pop_psw_witness :
    ∃ s1, Emulate8080Op pswState machineInit = .ok s1 machineInit ∧
      (s1.memory 0x23FE).testBit 7 = true ∧
      (s1.memory 0x23FE).testBit 1 = true ∧
      (s1.memory 0x23FE).testBit 5 = false ∧
      (s1.memory 0x23FE).testBit 3 = false ∧
      (∃ s2, Emulate8080Op s1 machineInit = .ok s2 machineInit ∧
        s2.a = 0xA5 ∧ s2.cc = pswState.cc ∧ s2.sp = 0x2400) := by
  obtain ⟨s1, hstep, hb7, hb6, hb5, hb4, hb3, hb2, hb1, hb0, hm1, hsp1, hpop⟩ :=
    c5_push_pop_psw pswState machineInit (by decide) (by decide) rfl
  have hfe : s1.memory (mask16 s1.pc) = 0xF1 := by
    rw [step_push_psw pswState machineInit rfl] at hstep
    injection hstep with h1
    rw [← h1]
    decide
  obtain ⟨s2, hstep2, ha2, hcc2, hsp2⟩ := hpop hfe
  have he : i16 ((pswState.sp : Int) - 2) = (0x23FE : Nat) := by decide
  rw [he] at hb7 hb1 hb5 hb3
  exact ⟨s1, hstep, hb7.trans rfl, hb1, hb5, hb3,
    s2, hstep2, ha2, hcc2, hsp2.trans (by decide)⟩

/-- C6: injecting interrupt n with the interrupt-enable latch clear changes
nothing at all; with the latch set it pushes PC (high byte at SP-1, low byte
at SP-2, SP decreased by 2), sets PC to 8*n, clears the latch and changes
nothing else. -/
theorem c6_generate_interrupt (s : State8080) (n : Nat)
    (hn : n < 8192) (hpc : s.pc < 65536) :
    (s.int_enable = 0 → generateInterrupt s n = s) ∧
    (s.int_enable ≠ 0 →
      (generateInterrupt s n).pc = 8 * n ∧
      (generateInterrupt s n).int_enable = 0 ∧
      (generateInterrupt s n).sp = i16 ((s.sp : Int) - 2) ∧
      (generateInterrupt s n).memory (i16 ((s.sp : Int) - 1)) = s.pc / 256 ∧
      (generateInterrupt s n).memory (i16 ((s.sp : Int) - 2)) = s.pc % 256 ∧
      (∀ addr, addr ≠ i16 ((s.sp : Int) - 1) → addr ≠ i16 ((s.sp : Int) - 2) →
        (generateInterrupt s n).memory addr = s.memory addr) ∧
      (generateInterrupt s n).a = s.a ∧ (generateInterrupt s n).b = s.b ∧
      (generateInterrupt s n).c = s.c ∧ (generateInterrupt s n).d = s.d ∧
      (generateInterrupt s n).e = s.e ∧ (generateInterrupt s n).h = s.h ∧
      (generateInterrupt s n).l = s.l ∧ (generateInterrupt s n).cc = s.cc) := by
  constructor
  · intro h
    unfold generateInterrupt
    rw [if_pos h]
  · intro h
    unfold generateInterrupt
    rw [if_neg h]
    refine ⟨?_, rfl, rfl, ?_, ?_, ?_, rfl, rfl, rfl, rfl, rfl, rfl, rfl, rfl⟩
    · show mask16 (8 * n) = 8 * n
      exact mask16_eq_of_lt (by omega)
    · show memWrite (memWrite s.memory (i16 ((s.sp : Int) - 1)) ((s.pc >>> 8) &&& 0xFF))
        (i16 ((s.sp : Int) - 2)) (s.pc &&& 0xFF) (i16 ((s.sp : Int) - 1)) = s.pc / 256
      unfold memWrite
      rw [mask16_i16, mask16_i16]
      rw [if_neg (show ¬ i16 ((s.sp : Int) - 1) = i16 ((s.sp : Int) - 2) by
        unfold i16; omega)]
      rw [if_pos rfl]
      rw [shiftRight_8_eq_div, and_255_eq_mod]
      unfold mask8
      omega
    · show memWrite (memWrite s.memory (i16 ((s.sp : Int) - 1)) ((s.pc >>> 8) &&& 0xFF))
        (i16 ((s.sp : Int) - 2)) (s.pc &&& 0xFF) (i16 ((s.sp : Int) - 2)) = s.pc % 256
      unfold memWrite
      rw [mask16_i16]
      rw [if_pos rfl]
      rw [and_255_eq_mod]
      unfold mask8
      omega
    · intro addr hne1 hne2
      show memWrite (memWrite s.memory (i16 ((s.sp : Int) - 1)) ((s.pc >>> 8) &&& 0xFF))
        (i16 ((s.sp : Int) - 2)) (s.pc &&& 0xFF) addr = s.memory addr
      unfold memWrite
      rw [mask16_i16, mask16_i16]
      rw [if_neg hne2, if_neg hne1]

/-- C6 witness: injecting interrupt 2 at PC = 0x1234, SP = 0x2400 with the
latch set pushes 0x12 at 0x23FF and 0x34 at 0x23FE, sets PC = 0x10 and clears
the latch; with the latch clear nothing changes. -/
theorem c6_generate_interrupt_witness :
    (generateInterrupt { intState with int_enable := 0 } 2 =
      { intState with int_enable := 0 }) ∧
    (generateInterrupt intState 2).pc = 0x10 ∧
    (generateInterrupt intState 2).int_enable = 0 ∧
    (generateInterrupt intState 2).sp = 0x23FE ∧
    (generateInterrupt intState 2).memory 0x23FF = 0x12 ∧
    (generateInterrupt intState 2).memory 0x23FE = 0x34 := by
  obtain ⟨h0, hrest⟩ :=
    c6_generate_interrupt intState 2 (by decide) (by decide)
  obtain ⟨hpc, hie, hsp, hhi, hlo, _⟩ := hrest (by decide)
  refine ⟨?_, hpc, hie, hsp.trans (by decide), ?_, ?_⟩
  · exact (c6_generate_interrupt { intState with int_enable := 0 } 2 (by decide)
      (by decide)).1 rfl
  · rw [show (0x23FF : Nat) = i16 ((intState.sp : Int) - 1) by decide]
    rw [hhi]
    decide
  · rw [show (0x23FE : Nat) = i16 ((intState.sp : Int) - 2) by decide]
    rw [hlo]
    decide

/-- C7: OUT 4 makes the written byte the high byte of the 16-bit shift
register and the previous high byte the new low byte; IN 3 reads the 8-bit
window ((shift_register <<< offset) >>> 8) for every offset in 0..7; and
concretely, writing 0x12 then 0x34 from a cleared register yields 0x3412,
whose port-3 reads give 0x34 at offset 0 and 0x41 at offset 4. -/
theorem c7_shift_register :
    (∀ (s : State8080) (m : MachineState), s.memory (mask16 s.pc) = 0xD3 →
      operand1 s = 4 → s.a < 256 → m.shift_register < 65536 →
      Emulate8080Op s m = .ok { s with pc := mask16 (s.pc + 2) }
        { m with shift_register := (s.a <<< 8) ||| (m.shift_register >>> 8) }) ∧
    (∀ (s : State8080) (m : MachineState), s.memory (mask16 s.pc) = 0xDB →
      operand1 s = 3 → m.shift_offset ≤ 7 →
      Emulate8080Op s m = .ok { s with
        a := ((m.shift_register <<< m.shift_offset) >>> 8) &&& 0xFF
        pc := mask16 (s.pc + 2) } m) ∧
    (resultMachine (Emulate8080Op (out4State 0x12) machineInit)
      machineInit).shift_register = 0x1200 ∧
    (resultMachine (Emulate8080Op (out4State 0x34)
      { machineInit with shift_register := 0x1200 })
      machineInit).shift_register = 0x3412 ∧
    (theOkState (Emulate8080Op in3State { machineInit with shift_register := 0x3412 })
      in3State).a = 0x34 ∧
    (theOkState (Emulate8080Op in3State
      { machineInit with shift_register := 0x3412, shift_offset := 4 })
      in3State).a = 0x41 := by
  refine ⟨?_, ?_, ?_, ?_, ?_, ?_⟩
  · intro s m h hp ha hsr
    rw [step_out s m h]
    rw [if_neg (show ¬ operand1 s = 2 by rw [hp]; decide), if_pos hp]
    have hlt : (s.a <<< 8) ||| (m.shift_register >>> 8) < 65536 := by
      have h1 : s.a <<< 8 < 2 ^ 16 := by
        rw [Nat.shiftLeft_eq]
        rw [show (2 : Nat) ^ 8 = 256 from rfl, show (2 : Nat) ^ 16 = 65536 from rfl]
        omega
      have h2 : m.shift_register >>> 8 < 2 ^ 16 := by
        rw [shiftRight_8_eq_div]
        rw [show (2 : Nat) ^ 16 = 65536 from rfl]
        omega
      have h3 := Nat.or_lt_two_pow h1 h2
      rw [show (2 : Nat) ^ 16 = 65536 from rfl] at h3
      exact h3
    rw [mask16_eq_of_lt hlt]
  · intro s m h hp hoff
    rw [step_in s m h]
    rw [if_neg (show ¬ operand1 s = 1 by rw [hp]; decide),
      if_neg (show ¬ operand1 s = 2 by rw [hp]; decide), if_pos hp]
    rw [shift_window_eq m.shift_register m.shift_offset hoff]
  · rw [step_out (out4State 0x12) machineInit rfl]; decide
  · rw [step_out (out4State 0x34) { machineInit with shift_register := 0x1200 } rfl]
    decide
  · rw [step_in in3State { machineInit with shift_register := 0x3412 } rfl]; decide
  · rw [step_in in3State
      { machineInit with shift_register := 0x3412, shift_offset := 4 } rfl]
    decide

/-- C7 witness: the OUT-4 contract applied at the concrete write of 0x12 to a
cleared machine. -/
theorem c7_shift_register_witness :
    Emulate8080Op (out4State 0x12) machineInit =
      .ok { out4State 0x12 with pc := 2 }
        { machineInit with shift_register := 0x1200 } := by
  have h := c7_shift_register.1 (out4State 0x12) machineInit rfl rfl
    (by decide) (by decide)
  rw [h]
  rfl

/-- C9: in every machine state reachable from startup, bit 3 of port1 is 1:
initialization sets it and neither input-event handling nor any port write
clears it; consequently every IN from port 1 loads A with a byte whose bit 3
is 1. -/
theorem c9_port1_bit3 :
    (∀ m, MachineReachable m → m.port1.testBit 3 = true) ∧
    (∀ (m m2 : MachineState) (s s2 : State8080), MachineReachable m →
      s.memory (mask16 s.pc) = 0xDB → operand1 s = 1 →
      Emulate8080Op s m = .ok s2 m2 → s2.a.testBit 3 = true) := by
  have inv : ∀ m, MachineReachable m → m.port1.testBit 3 = true := by
    intro m hm
    induction hm with
    | init => decide
    | input m0 ev hm0 ih =>
      cases ev <;> rename_i pressed <;> cases pressed <;>
        simp [io_handle_key, Nat.testBit_lor, Nat.testBit_land, ih] <;> decide
    | step m0 m2 s s2 hm0 hb hstep ih =>
      rw [emulate_port1_frame s s2 m0 m2 hb hstep]
      exact ih
  refine ⟨inv, ?_⟩
  intro m m2 s s2 hm hf hp hstep
  rw [step_in s m hf] at hstep
  injection hstep with h1 h2
  rw [← h1]
  rw [if_pos hp]
  show m.port1.testBit 3 = true
  exact inv m hm

/-- C9 witness: from the freshly initialized machine, bit 3 of port1 is 1 and
IN 1 loads a byte with bit 3 set. -/
theorem c9_port1_bit3_witness :
    machineInit.port1.testBit 3 = true ∧
    (theOkState (Emulate8080Op in1State machineInit) in1State).a.testBit 3 = true := by
  refine ⟨c9_port1_bit3.1 machineInit MachineReachable.init, ?_⟩
  rw [step_in in1State machineInit rfl]
  exact c9_port1_bit3.2 machineInit machineInit in1State _ MachineReachable.init rfl rfl
    (step_in in1State machineInit rfl)

end Intel8080
